import Mathlib

/-!
# vkd3d-multigpu: device-group context, load balancer and statistics

Shallow embedding of `libs/vkd3d-multigpu/nvidia_device_group.c`.

Conventions of the embedding.

* `uint32_t` / `uint64_t` values are natural numbers; no arithmetic of the
  embedded functions can wrap (loop counters stay below `gpu_count`, and
  `size_t` is taken to be 64 bits wide so `gpu_count * sizeof ..` is exact).
* A C `float` is an IEEE-754 binary32 value, represented by its bit pattern.
  The only float operations of the file are assignment and `<` / `>`.
* A pointer to a struct is an `Option` (`none` is `NULL`).  A pointer to an
  array is an `Option (List _)`: `none` is `NULL`, `some l` is the block of
  `l.length` elements the pointer designates.
* Vulkan handles are natural numbers, `0` being `VK_NULL_HANDLE`.
* A function that reads or writes memory returns an `Outcome`: `ok v` when it
  runs to completion, `fault` when it dereferences `NULL` or indexes a block
  out of bounds (undefined behaviour in C).
* A function that mutates the object behind a pointer returns the object's
  state after the call.
-/

namespace Vkd3dMultiGpu

/-! ## IEEE-754 binary32 -/

/-- A C `float`, given by its bit pattern; only the low 32 bits are read. -/
structure F32 where
  bits : Nat
  deriving DecidableEq, Repr

namespace F32

/-- Sign bit (bit 31). -/
def sign (x : F32) : Bool := decide ((x.bits / 2 ^ 31) % 2 = 1)

/-- Biased exponent (bits 30..23). -/
def expo (x : F32) : Nat := (x.bits / 2 ^ 23) % 256

/-- Fraction field (bits 22..0). -/
def mant (x : F32) : Nat := x.bits % 2 ^ 23

/-- NaN: exponent all ones and a non-zero fraction. -/
def isNaN (x : F32) : Bool := decide (x.expo = 255) && decide (x.mant ≠ 0)

/-- Sign-magnitude reading of the bit pattern.  On values that are not NaN it
is strictly monotone in the real value denoted (infinities included), and it
sends both `+0.0` and `-0.0` to `0`. -/
def key (x : F32) : Int :=
  if x.sign then -((x.bits % 2 ^ 31 : Nat) : Int) else ((x.bits % 2 ^ 31 : Nat) : Int)

/-- C `a < b` on floats: false as soon as one operand is NaN. -/
def lt (a b : F32) : Bool := !a.isNaN && !b.isNaN && decide (a.key < b.key)

/-- C `a > b` on floats. -/
def gt (a b : F32) : Bool := lt b a

/-- C `a <= b` on floats: false as soon as one operand is NaN. -/
def le (a b : F32) : Bool := !a.isNaN && !b.isNaN && decide (a.key ≤ b.key)

/-- C `a == b` on floats. -/
def feq (a b : F32) : Bool := !a.isNaN && !b.isNaN && decide (a.key = b.key)

/-- The literal `0.0f`. -/
def zero : F32 := ⟨0⟩

/-- The literal `1.0f`. -/
def one : F32 := ⟨0x3F800000⟩

/-- The value lies in the closed interval `[0.0, 1.0]`. -/
def inUnit (x : F32) : Bool := le zero x && le x one

end F32

/-! ## Memory outcomes -/

/-- Result of running code that touches memory. -/
inductive Outcome (α : Type) where
  | ok (value : α)
  | fault
  deriving DecidableEq, Repr

namespace Outcome

/-- Sequencing: a fault aborts the rest of the computation. -/
def bind {α β : Type} (x : Outcome α) (f : α → Outcome β) : Outcome β :=
  match x with
  | ok v => f v
  | fault => fault

end Outcome

/-- The access `p[i]` for reading. -/
def read {α : Type} (p : Option (List α)) (i : Nat) : Outcome α :=
  match p with
  | none => Outcome.fault
  | some l =>
    match l[i]? with
    | none => Outcome.fault
    | some v => Outcome.ok v

/-- The assignment `p[i] = v`. -/
def write {α : Type} (p : Option (List α)) (i : Nat) (v : α) : Outcome (Option (List α)) :=
  match p with
  | none => Outcome.fault
  | some l => if i < l.length then Outcome.ok (some (l.set i v)) else Outcome.fault

/-- The call `malloc(n * sizeof(elem))`.  `fresh = none`: the allocation fails
and `NULL` is returned.  `fresh = some f`: a block of `n` elements is returned
whose indeterminate initial content is `f 0, .., f (n-1)`. -/
def malloc {α : Type} (fresh : Option (Nat → α)) (n : Nat) : Option (List α) :=
  fresh.map fun f => (List.range n).map f

/-! ## Vulkan result codes -/

abbrev VkResult := Int

def VK_SUCCESS : VkResult := 0
def VK_ERROR_OUT_OF_HOST_MEMORY : VkResult := -1
def VK_ERROR_INITIALIZATION_FAILED : VkResult := -3

/-! ## Data model (`nvidia_device_group.h`) -/

/-- Multi-GPU adapter information. -/
structure vkd3d_gpu_info where
  gpu_index : Nat
  device_id : Nat
  dedicated_vram : Nat
  shared_vram : Nat
  physical_device : Nat
  logical_device : Nat
  device_name : List Nat
  deriving DecidableEq, Repr

/-- Device group configuration. -/
structure vkd3d_device_group_config where
  gpu_count : Nat
  gpus : Option (List vkd3d_gpu_info)
  primary_gpu : Nat
  gpu_affinity_mask : Option (List Nat)
  load_balance_enabled : Nat
  gpu_load_threshold : F32
  frame_pacing_enabled : Nat
  frame_interval_ms : Nat
  deriving DecidableEq, Repr

/-- Multi-GPU context. -/
structure vkd3d_multigpu_context where
  config : vkd3d_device_group_config
  instance_handle : Nat
  physical_devices : Option (List Nat)
  logical_devices : Option (List Nat)
  compute_queues : Option (List Nat)
  transfer_queues : Option (List Nat)
  frame_fences : Option (List Nat)
  gpu_events : Option (List Nat)
  frame_semaphores : Option (List Nat)
  device_memories : Option (List Nat)
  allocated_sizes : Option (List Nat)
  total_frames : Nat
  gpu_utilization : Option (List F32)
  gpu_bytes_transferred : Option (List Nat)
  deriving DecidableEq, Repr

/-- What the allocator answers to the seven `malloc` calls of
`vkd3d_multigpu_create`, in program order.  For the context itself only
success matters (it is cleared by `memset`); for each array the answer is
either failure or the indeterminate content of the fresh block. -/
structure alloc_env where
  ctx : Bool
  physical_devices : Option (Nat → Nat)
  logical_devices : Option (Nat → Nat)
  compute_queues : Option (Nat → Nat)
  transfer_queues : Option (Nat → Nat)
  gpu_utilization : Option (Nat → F32)
  gpu_bytes_transferred : Option (Nat → Nat)

/-- Every allocation of `vkd3d_multigpu_create` succeeds. -/
def alloc_env.all_ok (env : alloc_env) : Prop :=
  env.ctx = true ∧ env.physical_devices.isSome ∧ env.logical_devices.isSome ∧
  env.compute_queues.isSome ∧ env.transfer_queues.isSome ∧
  env.gpu_utilization.isSome ∧ env.gpu_bytes_transferred.isSome

/-- The pointer `config->gpus` designates at least `gpu_count` descriptors. -/
def config_valid (c : vkd3d_device_group_config) : Prop :=
  ∃ l, c.gpus = some l ∧ c.gpu_count ≤ l.length

/-- The six per-GPU arrays of the context are blocks of exactly `gpu_count`
elements. -/
def ctx_valid (c : vkd3d_multigpu_context) : Prop :=
  (∃ l, c.physical_devices = some l ∧ l.length = c.config.gpu_count) ∧
  (∃ l, c.logical_devices = some l ∧ l.length = c.config.gpu_count) ∧
  (∃ l, c.compute_queues = some l ∧ l.length = c.config.gpu_count) ∧
  (∃ l, c.transfer_queues = some l ∧ l.length = c.config.gpu_count) ∧
  (∃ l, c.gpu_utilization = some l ∧ l.length = c.config.gpu_count) ∧
  (∃ l, c.gpu_bytes_transferred = some l ∧ l.length = c.config.gpu_count)

/-! ## Operations (`nvidia_device_group.c`) -/

set_option linter.unusedVariables false

/-- Loop of `vkd3d_multigpu_destroy`, `for (i = ..; i < gpu_count; ++i)` with
`k` iterations left.  `destroyed` lists the handles handed to
`vkDestroyDevice` so far. -/
def destroy_loop (logical_devices : Option (List Nat)) :
    Nat → Nat → List Nat → Outcome (List Nat)
  | 0, _, destroyed => Outcome.ok destroyed
  | k + 1, i, destroyed =>
    match logical_devices with
    | none => destroy_loop logical_devices k (i + 1) destroyed
    | some _ =>
      (read logical_devices i).bind fun d =>
        if d ≠ 0 then destroy_loop logical_devices k (i + 1) (destroyed ++ [d])
        else destroy_loop logical_devices k (i + 1) destroyed

/-- `vkd3d_multigpu_destroy`: returns the handles handed to `vkDestroyDevice`,
in call order.  The context and its arrays are freed, so no state remains. -/
def vkd3d_multigpu_destroy (ctx : Option vkd3d_multigpu_context) : Outcome (List Nat) :=
  match ctx with
  | none => Outcome.ok []
  | some c => destroy_loop c.logical_devices c.config.gpu_count 0 []

/-- Initialisation loop of `vkd3d_multigpu_create` with `k` iterations left. -/
def create_loop (config : vkd3d_device_group_config) :
    Nat → Nat → vkd3d_multigpu_context → Outcome vkd3d_multigpu_context
  | 0, _, ctx => Outcome.ok ctx
  | k + 1, i, ctx =>
    (read config.gpus i).bind fun g =>
    (write ctx.physical_devices i g.physical_device).bind fun pd =>
    (write ctx.gpu_utilization i F32.zero).bind fun gu =>
    (write ctx.gpu_bytes_transferred i 0).bind fun gb =>
    create_loop config k (i + 1)
      { ctx with physical_devices := pd, gpu_utilization := gu, gpu_bytes_transferred := gb }

/-- Everything `vkd3d_multigpu_create` leaves behind. -/
structure create_result where
  /-- The returned pointer. -/
  ret : Option vkd3d_multigpu_context
  /-- The caller's config object after the call. -/
  config : Option vkd3d_device_group_config
  /-- Handles handed to `vkDestroyDevice` on the rollback path. -/
  destroyed : List Nat
  deriving DecidableEq, Repr

/-- `vkd3d_multigpu_create`. -/
def vkd3d_multigpu_create (env : alloc_env) (config : Option vkd3d_device_group_config) :
    Outcome create_result :=
  match config with
  | none => Outcome.ok ⟨none, none, []⟩
  | some c =>
    if c.gpu_count = 0 then Outcome.ok ⟨none, some c, []⟩
    else if !env.ctx then Outcome.ok ⟨none, some c, []⟩
    else
      -- memset(ctx, 0, ..); memcpy(&ctx->config, config, ..); six mallocs
      let ctx : vkd3d_multigpu_context :=
        { config := c
          instance_handle := 0
          physical_devices := malloc env.physical_devices c.gpu_count
          logical_devices := malloc env.logical_devices c.gpu_count
          compute_queues := malloc env.compute_queues c.gpu_count
          transfer_queues := malloc env.transfer_queues c.gpu_count
          frame_fences := none
          gpu_events := none
          frame_semaphores := none
          device_memories := none
          allocated_sizes := none
          total_frames := 0
          gpu_utilization := malloc env.gpu_utilization c.gpu_count
          gpu_bytes_transferred := malloc env.gpu_bytes_transferred c.gpu_count }
      if ctx.physical_devices.isNone || ctx.logical_devices.isNone ||
          ctx.compute_queues.isNone || ctx.transfer_queues.isNone ||
          ctx.gpu_utilization.isNone || ctx.gpu_bytes_transferred.isNone then
        (vkd3d_multigpu_destroy (some ctx)).bind fun d => Outcome.ok ⟨none, some c, d⟩
      else
        (create_loop c c.gpu_count 0 ctx).bind fun ctx1 =>
          Outcome.ok
            ⟨some { ctx1 with
                total_frames := 0
                config := { ctx1.config with
                  primary_gpu := if c.primary_gpu < c.gpu_count then c.primary_gpu else 0 } },
              some c, []⟩

/-- `vkd3d_multigpu_create_device_group`. -/
def vkd3d_multigpu_create_device_group (ctx : Option vkd3d_multigpu_context) :
    VkResult × Option vkd3d_multigpu_context :=
  match ctx with
  | none => (VK_ERROR_INITIALIZATION_FAILED, none)
  | some c =>
    if c.config.gpu_count = 0 then (VK_ERROR_INITIALIZATION_FAILED, some c)
    else (VK_SUCCESS, some c)

/-- `vkd3d_multigpu_set_primary_gpu`. -/
def vkd3d_multigpu_set_primary_gpu (ctx : Option vkd3d_multigpu_context) (gpu_index : Nat) :
    VkResult × Option vkd3d_multigpu_context :=
  match ctx with
  | none => (VK_ERROR_INITIALIZATION_FAILED, none)
  | some c =>
    if gpu_index ≥ c.config.gpu_count then (VK_ERROR_INITIALIZATION_FAILED, some c)
    else (VK_SUCCESS, some { c with config := { c.config with primary_gpu := gpu_index } })

/-- Scan loop of `vkd3d_multigpu_get_optimal_gpu` with `k` iterations left. -/
def optimal_loop (gpu_utilization : Option (List F32)) : Nat → Nat → Nat → F32 → Outcome Nat
  | 0, _, best_gpu, _ => Outcome.ok best_gpu
  | k + 1, i, best_gpu, min_utilization =>
    (read gpu_utilization i).bind fun u =>
      if F32.lt u min_utilization then optimal_loop gpu_utilization k (i + 1) i u
      else optimal_loop gpu_utilization k (i + 1) best_gpu min_utilization

/-- `vkd3d_multigpu_get_optimal_gpu`. -/
def vkd3d_multigpu_get_optimal_gpu (ctx : Option vkd3d_multigpu_context)
    (workload_size : Nat) : Outcome Nat :=
  match ctx with
  | none => Outcome.ok 0
  | some c =>
    if c.config.gpu_count = 0 then Outcome.ok 0
    else
      (read c.gpu_utilization 0).bind fun min_utilization =>
        optimal_loop c.gpu_utilization (c.config.gpu_count - 1) 1 0 min_utilization

/-- `vkd3d_multigpu_get_gpu_stats`.  The two out-parameters are given by the
content of the cell each designates before the call (`none` for a `NULL`
pointer); the result is the content of the two cells after the call. -/
def vkd3d_multigpu_get_gpu_stats (ctx : Option vkd3d_multigpu_context) (gpu_index : Nat)
    (utilization : Option F32) (bytes_transferred : Option Nat) :
    Outcome (Option F32 × Option Nat) :=
  match ctx with
  | none => Outcome.ok (utilization, bytes_transferred)
  | some c =>
    if gpu_index ≥ c.config.gpu_count then Outcome.ok (utilization, bytes_transferred)
    else
      (match utilization with
        | some _ => (read c.gpu_utilization gpu_index).bind fun u => Outcome.ok (some u)
        | none => Outcome.ok none).bind fun utilization1 =>
      (match bytes_transferred with
        | some _ => (read c.gpu_bytes_transferred gpu_index).bind fun b => Outcome.ok (some b)
        | none => Outcome.ok none).bind fun bytes_transferred1 =>
      Outcome.ok (utilization1, bytes_transferred1)

/-- Loop of `vkd3d_multigpu_reset_stats` with `k` iterations left. -/
def reset_loop : Nat → Nat → vkd3d_multigpu_context → Outcome vkd3d_multigpu_context
  | 0, _, ctx => Outcome.ok ctx
  | k + 1, i, ctx =>
    (write ctx.gpu_utilization i F32.zero).bind fun gu =>
    (write ctx.gpu_bytes_transferred i 0).bind fun gb =>
    reset_loop k (i + 1) { ctx with gpu_utilization := gu, gpu_bytes_transferred := gb }

/-- `vkd3d_multigpu_reset_stats`. -/
def vkd3d_multigpu_reset_stats (ctx : Option vkd3d_multigpu_context) :
    Outcome (Option vkd3d_multigpu_context) :=
  match ctx with
  | none => Outcome.ok none
  | some c =>
    (reset_loop c.config.gpu_count 0 c).bind fun c1 =>
      Outcome.ok (some { c1 with total_frames := 0 })

/-- `vkd3d_multigpu_set_frame_pacing`. -/
def vkd3d_multigpu_set_frame_pacing (ctx : Option vkd3d_multigpu_context)
    (enabled : Nat) (frame_interval_ms : Nat) : VkResult × Option vkd3d_multigpu_context :=
  match ctx with
  | none => (VK_ERROR_INITIALIZATION_FAILED, none)
  | some c =>
    (VK_SUCCESS,
      some { c with config := { c.config with
        frame_pacing_enabled := enabled, frame_interval_ms := frame_interval_ms } })

/-- `vkd3d_multigpu_set_load_balance_threshold`. -/
def vkd3d_multigpu_set_load_balance_threshold (ctx : Option vkd3d_multigpu_context)
    (threshold : F32) : VkResult × Option vkd3d_multigpu_context :=
  match ctx with
  | none => (VK_ERROR_INITIALIZATION_FAILED, none)
  | some c =>
    if F32.lt threshold F32.zero || F32.gt threshold F32.one then
      (VK_ERROR_INITIALIZATION_FAILED, some c)
    else (VK_SUCCESS, some { c with config := { c.config with gpu_load_threshold := threshold } })

/-! ## GPU inventory (`vkd3d_multigpu_enumerate_gpus`)

The Vulkan types and constants below come from `<vulkan/vulkan.h>`; only the
fields the inventory reads are kept. -/

/-- Value of `VK_MEMORY_HEAP_DEVICE_LOCAL_BIT`. -/
def VK_MEMORY_HEAP_DEVICE_LOCAL_BIT : Nat := 1

/-- `VkMemoryHeap`: a `VkDeviceSize` (64 bit) and a flag word. -/
structure VkMemoryHeap where
  size : Nat
  flags : Nat
  deriving DecidableEq, Repr

/-- `VkPhysicalDeviceProperties`. -/
structure VkPhysicalDeviceProperties where
  deviceID : Nat
  deviceName : List Nat
  deriving DecidableEq, Repr

/-- `VkPhysicalDeviceMemoryProperties`. -/
structure VkPhysicalDeviceMemoryProperties where
  memoryHeapCount : Nat
  memoryHeaps : List VkMemoryHeap
  deriving DecidableEq, Repr

/-- What the Vulkan implementation and the allocator answer to the calls of
`vkd3d_multigpu_enumerate_gpus`: the results of the two
`vkEnumeratePhysicalDevices` calls, the adapter handles the instance reports,
the properties of each handle, and the two `malloc` answers. -/
structure enumerate_env where
  count_result : VkResult
  fill_result : VkResult
  physical_devices : List Nat
  properties : Nat → VkPhysicalDeviceProperties
  memory_properties : Nat → VkPhysicalDeviceMemoryProperties
  malloc_physical_devices : Option (Nat → Nat)
  malloc_gpus : Option (Nat → vkd3d_gpu_info)

/-- The call `strncpy(dest, src, n)`: the bytes of `src` up to its first NUL,
at most `n` of them, padded with NUL bytes to length `n`. -/
def strncpy (src : List Nat) (n : Nat) : List Nat :=
  ((src.takeWhile fun ch => ch ≠ 0).take n) ++
    List.replicate (n - ((src.takeWhile fun ch => ch ≠ 0).take n).length) 0

/-- Heap loop of `vkd3d_multigpu_enumerate_gpus` with `k` iterations left;
`dedicated_vram` and `shared_vram` are the two 64-bit accumulators of
`gpus[i]`. -/
def heap_loop (mem_props : VkPhysicalDeviceMemoryProperties) :
    Nat → Nat → Nat → Nat → Outcome (Nat × Nat)
  | 0, _, dedicated_vram, shared_vram => Outcome.ok (dedicated_vram, shared_vram)
  | k + 1, j, dedicated_vram, shared_vram =>
    (read (some mem_props.memoryHeaps) j).bind fun heap =>
      if heap.flags &&& VK_MEMORY_HEAP_DEVICE_LOCAL_BIT ≠ 0 then
        heap_loop mem_props k (j + 1) ((dedicated_vram + heap.size) % 2 ^ 64) shared_vram
      else
        heap_loop mem_props k (j + 1) dedicated_vram ((shared_vram + heap.size) % 2 ^ 64)

/-- Adapter loop of `vkd3d_multigpu_enumerate_gpus` with `k` iterations left.
The field `logical_device` of `gpus[i]` is not assigned and keeps the content
of the fresh block. -/
def enumerate_loop (env : enumerate_env) (physical_devices : Option (List Nat)) :
    Nat → Nat → Option (List vkd3d_gpu_info) → Outcome (Option (List vkd3d_gpu_info))
  | 0, _, gpus => Outcome.ok gpus
  | k + 1, i, gpus =>
    (read physical_devices i).bind fun pd =>
    (read gpus i).bind fun g =>
    (heap_loop (env.memory_properties pd) (env.memory_properties pd).memoryHeapCount
        0 0 0).bind fun vram =>
    (write gpus i
        { g with
          gpu_index := i
          device_id := (env.properties pd).deviceID
          physical_device := pd
          dedicated_vram := vram.1
          shared_vram := vram.2
          device_name := strncpy (env.properties pd).deviceName 255 ++ [0] }).bind fun gpus1 =>
    enumerate_loop env physical_devices k (i + 1) gpus1

/-- Everything `vkd3d_multigpu_enumerate_gpus` leaves behind: the returned
code and the content of the two output cells (`none` for a `NULL` pointer). -/
structure enumerate_result where
  ret : VkResult
  out_gpus : Option (Option (List vkd3d_gpu_info))
  out_gpu_count : Option Nat
  deriving DecidableEq, Repr

/-- `vkd3d_multigpu_enumerate_gpus`.  The two output pointers are given by the
content of the cell each designates before the call. -/
def vkd3d_multigpu_enumerate_gpus (env : enumerate_env) (instance_handle : Nat)
    (out_gpus : Option (Option (List vkd3d_gpu_info))) (out_gpu_count : Option Nat) :
    Outcome enumerate_result :=
  if instance_handle = 0 ∨ out_gpus.isNone = true ∨ out_gpu_count.isNone = true then
    Outcome.ok ⟨VK_ERROR_INITIALIZATION_FAILED, out_gpus, out_gpu_count⟩
  else if env.count_result ≠ VK_SUCCESS then
    Outcome.ok ⟨env.count_result, out_gpus, out_gpu_count⟩
  else if env.physical_devices.length = 0 then
    Outcome.ok ⟨VK_SUCCESS, some none, some 0⟩
  else if (malloc env.malloc_physical_devices env.physical_devices.length).isNone ||
      (malloc env.malloc_gpus env.physical_devices.length).isNone then
    Outcome.ok ⟨VK_ERROR_OUT_OF_HOST_MEMORY, out_gpus, out_gpu_count⟩
  else if env.fill_result ≠ VK_SUCCESS then
    Outcome.ok ⟨env.fill_result, out_gpus, out_gpu_count⟩
  else
    -- the second vkEnumeratePhysicalDevices call has filled the handle block
    (enumerate_loop env (some env.physical_devices) env.physical_devices.length 0
        (malloc env.malloc_gpus env.physical_devices.length)).bind fun gpus =>
      Outcome.ok ⟨VK_SUCCESS, some gpus, some env.physical_devices.length⟩

/-- The heap carries the device-local flag. -/
def device_local (heap : VkMemoryHeap) : Bool :=
  decide (heap.flags &&& VK_MEMORY_HEAP_DEVICE_LOCAL_BIT ≠ 0)

/-- The heaps an adapter reports: the first `memoryHeapCount` entries. -/
def reported_heaps (mem_props : VkPhysicalDeviceMemoryProperties) : List VkMemoryHeap :=
  mem_props.memoryHeaps.take mem_props.memoryHeapCount

/-- Total size of a list of heaps, as an unbounded number. -/
def heap_bytes (heaps : List VkMemoryHeap) : Nat :=
  (heaps.map fun heap => heap.size).sum

/-- Descriptor `g` describes adapter number `i` with handle `pd`: ordinal,
handle and device id are those of the adapter, `dedicated_vram` is the sum
modulo `2^64` of the sizes of its device-local heaps and `shared_vram` the sum
modulo `2^64` of the sizes of its other heaps. -/
def descriptor_of (env : enumerate_env) (i pd : Nat) (g : vkd3d_gpu_info) : Prop :=
  g.gpu_index = i ∧ g.physical_device = pd ∧ g.device_id = (env.properties pd).deviceID ∧
  g.dedicated_vram =
    heap_bytes ((reported_heaps (env.memory_properties pd)).filter device_local) % 2 ^ 64 ∧
  g.shared_vram =
    heap_bytes ((reported_heaps (env.memory_properties pd)).filter
      fun heap => !device_local heap) % 2 ^ 64

/-! ## Peer access manager

`vkd3d_multigpu_enable_peer_access` is declared in `nvidia_device_group.h`, but
no source file defines it and `vkd3d_multigpu_context` has no field for peer
links. -/

/-- Modelled from the spec: the result kinds of the peer access manager, whose
implementation is missing from the sources.  Spec section 4.4 names success,
IndexError and UnsupportedError. -/
inductive peer_result where
  | success
  | index_error
  | unsupported_error
  deriving DecidableEq, Repr

/-- Modelled from the spec: a context together with the directed peer links
established on it; the C context has no storage for links.  Spec section 3
describes a link as an ordered pair `(source_gpu, dest_gpu)`. -/
structure peer_context where
  ctx : vkd3d_multigpu_context
  links : List (Nat × Nat)
  deriving DecidableEq, Repr

/-- Modelled from the spec: `vkd3d_multigpu_enable_peer_access`, whose body is
missing from the sources.  Spec section 4.4: fails with IndexError if either
index is out of range, fails with UnsupportedError if the underlying adapters
do not support a peer link (the hardware's answer is `peer_supported`);
otherwise establishes the directed link, re-enabling an already-enabled pair
being a no-op success. -/
def vkd3d_multigpu_enable_peer_access (peer_supported : Nat → Nat → Bool)
    (s : peer_context) (source_gpu dest_gpu : Nat) : peer_result × peer_context :=
  if source_gpu ≥ s.ctx.config.gpu_count ∨ dest_gpu ≥ s.ctx.config.gpu_count then
    (peer_result.index_error, s)
  else if !peer_supported source_gpu dest_gpu then (peer_result.unsupported_error, s)
  else if (source_gpu, dest_gpu) ∈ s.links then (peer_result.success, s)
  else (peer_result.success, { s with links := s.links ++ [(source_gpu, dest_gpu)] })

/-! ## Call sequences on a live context -/

/-- One call on a live context, with its arguments: the seven functions of
`nvidia_device_group.c` that take a context and leave it allocated. -/
inductive ctx_call where
  | set_primary_gpu (gpu_index : Nat)
  | set_frame_pacing (enabled frame_interval_ms : Nat)
  | set_load_balance_threshold (threshold : F32)
  | reset_stats
  | create_device_group
  | get_gpu_stats (gpu_index : Nat) (utilization : Option F32)
      (bytes_transferred : Option Nat)
  | get_optimal_gpu (workload_size : Nat)
  deriving DecidableEq, Repr

/-- The object a context pointer designates after a call on it. -/
def pointee (ctx : Option vkd3d_multigpu_context) : Outcome vkd3d_multigpu_context :=
  match ctx with
  | some c => Outcome.ok c
  | none => Outcome.fault

/-- The context after one call, whether the call succeeds or fails; the result
code and the outputs of the call are dropped.  The two read-only functions
leave the context as it is. -/
def run_call (c : vkd3d_multigpu_context) : ctx_call → Outcome vkd3d_multigpu_context
  | ctx_call.set_primary_gpu gpu_index =>
    pointee (vkd3d_multigpu_set_primary_gpu (some c) gpu_index).2
  | ctx_call.set_frame_pacing enabled frame_interval_ms =>
    pointee (vkd3d_multigpu_set_frame_pacing (some c) enabled frame_interval_ms).2
  | ctx_call.set_load_balance_threshold threshold =>
    pointee (vkd3d_multigpu_set_load_balance_threshold (some c) threshold).2
  | ctx_call.reset_stats => (vkd3d_multigpu_reset_stats (some c)).bind pointee
  | ctx_call.create_device_group => pointee (vkd3d_multigpu_create_device_group (some c)).2
  | ctx_call.get_gpu_stats gpu_index utilization bytes_transferred =>
    (vkd3d_multigpu_get_gpu_stats (some c) gpu_index utilization bytes_transferred).bind
      fun _ => Outcome.ok c
  | ctx_call.get_optimal_gpu workload_size =>
    (vkd3d_multigpu_get_optimal_gpu (some c) workload_size).bind fun _ => Outcome.ok c

/-- The context after a sequence of calls, made in list order. -/
def run_calls (c : vkd3d_multigpu_context) : List ctx_call → Outcome vkd3d_multigpu_context
  | [] => Outcome.ok c
  | call :: rest => (run_call c call).bind fun c1 => run_calls c1 rest

/-- Shape invariant of a live context created for `n` GPUs: `gpu_count` is
`n` and at least `1`, the six per-GPU arrays hold exactly `gpu_count` entries,
and `primary_gpu` is below `gpu_count`. -/
def ctx_inv (n : Nat) (c : vkd3d_multigpu_context) : Prop :=
  c.config.gpu_count = n ∧ 1 ≤ n ∧ ctx_valid c ∧ c.config.primary_gpu < c.config.gpu_count

/-! ## Sample data -/

/-- Context of `n` GPUs with the given utilizations and zeroed handles. -/
def sample_ctx (utilization : List F32) : vkd3d_multigpu_context :=
  { config :=
      { gpu_count := utilization.length
        gpus := none
        primary_gpu := 0
        gpu_affinity_mask := none
        load_balance_enabled := 1
        gpu_load_threshold := ⟨0x3F000000⟩
        frame_pacing_enabled := 0
        frame_interval_ms := 16 }
    instance_handle := 0
    physical_devices := some (List.replicate utilization.length 0)
    logical_devices := some (List.replicate utilization.length 0)
    compute_queues := some (List.replicate utilization.length 0)
    transfer_queues := some (List.replicate utilization.length 0)
    frame_fences := none
    gpu_events := none
    frame_semaphores := none
    device_memories := none
    allocated_sizes := none
    total_frames := 7
    gpu_utilization := some utilization
    gpu_bytes_transferred := some (List.replicate utilization.length 1024) }

/-- Utilizations `[0.8, 0.1, 0.5]`. -/
def ctx_mixed : vkd3d_multigpu_context :=
  sample_ctx [⟨0x3F4CCCCD⟩, ⟨0x3DCCCCCD⟩, ⟨0x3F000000⟩]

/-- Utilizations `[0.2, 0.2, 0.2]`. -/
def ctx_tied : vkd3d_multigpu_context :=
  sample_ctx [⟨0x3E4CCCCD⟩, ⟨0x3E4CCCCD⟩, ⟨0x3E4CCCCD⟩]

/-- Utilizations `[1.0, NaN, 0.5]` (`0x7FC00000` is the quiet NaN). -/
def ctx_nan : vkd3d_multigpu_context :=
  sample_ctx [⟨0x3F800000⟩, ⟨0x7FC00000⟩, ⟨0x3F000000⟩]

/-- Two GPUs with utilizations `[0.9, 0.1]`. -/
def ctx_pair : vkd3d_multigpu_context :=
  sample_ctx [⟨0x3F666666⟩, ⟨0x3DCCCCCD⟩]

/-- One GPU with utilization `0.8`. -/
def ctx_single : vkd3d_multigpu_context :=
  sample_ctx [⟨0x3F4CCCCD⟩]

/-- Allocator under which all seven allocations succeed; the fresh blocks hold
arbitrary non-zero garbage. -/
def env_ok : alloc_env :=
  { ctx := true
    physical_devices := some fun i => 0xAA00 + i
    logical_devices := some fun i => 0xBB00 + i
    compute_queues := some fun i => 0xCC00 + i
    transfer_queues := some fun i => 0xDD00 + i
    gpu_utilization := some fun i => ⟨0x7FC00000 + i⟩
    gpu_bytes_transferred := some fun i => 0xEE00 + i }

/-- Descriptor of adapter `i` with physical-device handle `h`. -/
def sample_gpu (i h : Nat) : vkd3d_gpu_info :=
  { gpu_index := i, device_id := 0x2684, dedicated_vram := 2 ^ 34, shared_vram := 2 ^ 35,
    physical_device := h, logical_device := 0, device_name := [78, 86, 0] }

/-- Config of two GPUs with an in-range primary. -/
def cfg_two : vkd3d_device_group_config :=
  { gpu_count := 2
    gpus := some [sample_gpu 0 0x1000, sample_gpu 1 0x2000]
    primary_gpu := 1
    gpu_affinity_mask := none
    load_balance_enabled := 1
    gpu_load_threshold := ⟨0x3F000000⟩
    frame_pacing_enabled := 1
    frame_interval_ms := 16 }

/-- Config of two GPUs whose primary is out of range. -/
def cfg_bad_primary : vkd3d_device_group_config :=
  { cfg_two with primary_gpu := 5 }

/-- Context with an empty group: `gpu_count == 0`. -/
def ctx_empty : vkd3d_multigpu_context :=
  sample_ctx []

/-- The quiet NaN. -/
def f32_nan : F32 := ⟨0x7FC00000⟩

/-- The context `vkd3d_multigpu_create` builds from `cfg_two` under `env_ok`:
the three handle arrays without an initialiser still hold the allocator's
garbage. -/
def ctx_fresh_two : vkd3d_multigpu_context :=
  { config := cfg_two
    instance_handle := 0
    physical_devices := some [0x1000, 0x2000]
    logical_devices := some [0xBB00, 0xBB01]
    compute_queues := some [0xCC00, 0xCC01]
    transfer_queues := some [0xDD00, 0xDD01]
    frame_fences := none
    gpu_events := none
    frame_semaphores := none
    device_memories := none
    allocated_sizes := none
    total_frames := 0
    gpu_utilization := some [F32.zero, F32.zero]
    gpu_bytes_transferred := some [0, 0] }

/-- Allocator whose last allocation (`gpu_bytes_transferred`) fails. -/
def env_fail_last : alloc_env :=
  { env_ok with gpu_bytes_transferred := none }

/-- Two adapters: handle `0x1000` with a device-local heap of 8 GiB, a shared
heap of 16 GiB and a device-local heap of `2^64 - 1` bytes; handle `0x2000`
with one shared heap of 4 GiB.  Both allocations succeed. -/
def env_two_adapters : enumerate_env :=
  { count_result := VK_SUCCESS
    fill_result := VK_SUCCESS
    physical_devices := [0x1000, 0x2000]
    properties := fun pd => { deviceID := pd + 1, deviceName := [71, 80, 85, 0] }
    memory_properties := fun pd =>
      if pd = 0x1000 then
        { memoryHeapCount := 3
          memoryHeaps := [⟨2 ^ 33, 1⟩, ⟨2 ^ 34, 0⟩, ⟨2 ^ 64 - 1, 3⟩] }
      else { memoryHeapCount := 1, memoryHeaps := [⟨2 ^ 32, 2⟩, ⟨7, 1⟩] }
    malloc_physical_devices := some fun i => 0xAA00 + i
    malloc_gpus := some fun i => sample_gpu (100 + i) (0xFF00 + i) }

/-- A call sequence that mixes failing calls (primary `7`, threshold `1.5`,
statistics of GPU `9`) with succeeding ones. -/
def sample_calls : List ctx_call :=
  [ctx_call.set_primary_gpu 7, ctx_call.set_frame_pacing 1 0,
    ctx_call.set_load_balance_threshold ⟨0x3FC00000⟩, ctx_call.reset_stats,
    ctx_call.create_device_group, ctx_call.get_gpu_stats 9 (some F32.one) none,
    ctx_call.get_gpu_stats 1 (some F32.one) (some 3), ctx_call.get_optimal_gpu 5,
    ctx_call.set_load_balance_threshold F32.one, ctx_call.set_primary_gpu 1]

/-! ## Float comparison lemmas -/

theorem F32.lt_irrefl (a : F32) : F32.lt a a = false := by
  simp [F32.lt]

theorem F32.lt_key {a b : F32} (h : F32.lt a b = true) :
    a.isNaN = false ∧ b.isNaN = false ∧ a.key < b.key := by
  simpa [F32.lt, and_assoc] using h

theorem F32.not_lt_key {a b : F32} (ha : a.isNaN = false) (hb : b.isNaN = false)
    (h : F32.lt a b = false) : b.key ≤ a.key := by
  simp [F32.lt, ha, hb] at h
  exact h

theorem F32.le_of_key {a b : F32} (ha : a.isNaN = false) (hb : b.isNaN = false)
    (h : a.key ≤ b.key) : F32.le a b = true := by
  simp [F32.le, ha, hb, h]

theorem F32.lt_of_key {a b : F32} (ha : a.isNaN = false) (hb : b.isNaN = false)
    (h : a.key < b.key) : F32.lt a b = true := by
  simp [F32.lt, ha, hb, h]

theorem F32.lt_false_of_key {a b : F32} (h : b.key ≤ a.key) : F32.lt a b = false := by
  simp [F32.lt]
  intro _ _
  exact h

theorem F32.inUnit_not_nan {a : F32} (h : a.inUnit = true) : a.isNaN = false := by
  simp [F32.inUnit, F32.le] at h
  exact h.2.1.1

/-! ## Memory access lemmas -/

theorem read_some {α : Type} (l : List α) (i : Nat) (v : α) :
    read (some l) i = Outcome.ok v ↔ l[i]? = some v := by
  unfold read
  cases h : l[i]? <;> simp [h]

theorem read_of_lt {α : Type} (l : List α) (i : Nat) (h : i < l.length) :
    read (some l) i = Outcome.ok (l.get ⟨i, h⟩) := by
  rw [read_some]
  simp [List.getElem?_eq_getElem h]

/-! ## The scan of `vkd3d_multigpu_get_optimal_gpu` -/

/-- Invariant of the scan, for any array content (NaN included): the incumbent
`best_gpu` holds `min_utilization`, no scanned entry compares below it, and
every entry before the incumbent is NaN or strictly above it. -/
theorem optimal_loop_spec (l : List F32) :
    ∀ (k i best : Nat) (m : F32), i + k = l.length → best < i → l[best]? = some m →
      (∀ (j : Nat) uj, j < i → l[j]? = some uj → F32.lt uj m = false) →
      (∀ j uj, j < best → l[j]? = some uj → uj.isNaN = true ∨ F32.lt m uj = true) →
      ∃ r ur, optimal_loop (some l) k i best m = Outcome.ok r ∧ r < l.length ∧
        l[r]? = some ur ∧
        (∀ (j : Nat) uj, l[j]? = some uj → F32.lt uj ur = false) ∧
        (∀ j uj, j < r → l[j]? = some uj → uj.isNaN = true ∨ F32.lt ur uj = true) := by
  intro k
  induction k with
  | zero =>
    intro i best m hik hb hm inv1 inv2
    refine ⟨best, m, rfl, by omega, hm, ?_, inv2⟩
    intro j uj hj
    have hlt : j < l.length := by
      rcases Nat.lt_or_ge j l.length with h | h
      · exact h
      · rw [List.getElem?_eq_none h] at hj
        cases hj
    exact inv1 j uj (by omega) hj
  | succ k ih =>
    intro i best m hik hb hm inv1 inv2
    have hi : i < l.length := by omega
    have hri : l[i]? = some (l.get ⟨i, hi⟩) := by simp [List.getElem?_eq_getElem hi]
    have hread : read (some l) i = Outcome.ok (l.get ⟨i, hi⟩) := read_of_lt l i hi
    unfold optimal_loop
    rw [hread]
    simp only [Outcome.bind]
    by_cases hc : F32.lt (l.get ⟨i, hi⟩) m = true
    · rw [if_pos hc]
      obtain ⟨hn1, hn2, hk⟩ := F32.lt_key hc
      apply ih (i + 1) i (l.get ⟨i, hi⟩) (by omega) (by omega) hri
      · intro j uj hj hju
        rcases Nat.lt_or_ge j i with h | h
        · have h1 := inv1 j uj h hju
          by_cases hnan : uj.isNaN = true
          · simp [F32.lt, hnan]
          · have hnan2 : uj.isNaN = false := by simpa using hnan
            have := F32.not_lt_key hnan2 hn2 h1
            exact F32.lt_false_of_key (by omega)
        · have : j = i := by omega
          subst this
          rw [hri] at hju
          cases hju
          exact F32.lt_irrefl _
      · intro j uj hj hju
        have h1 := inv1 j uj hj hju
        by_cases hnan : uj.isNaN = true
        · exact Or.inl hnan
        · have hnan2 : uj.isNaN = false := by simpa using hnan
          have := F32.not_lt_key hnan2 hn2 h1
          exact Or.inr (F32.lt_of_key hn1 hnan2 (by omega))
    · rw [if_neg hc]
      apply ih (i + 1) best m (by omega) (by omega) hm
      · intro j uj hj hju
        rcases Nat.lt_or_ge j i with h | h
        · exact inv1 j uj h hju
        · have : j = i := by omega
          subst this
          rw [hri] at hju
          cases hju
          simpa using hc
      · exact inv2

/-- Result of `vkd3d_multigpu_get_optimal_gpu` on a non-empty group whose
utilization array holds `gpu_count` entries. -/
theorem get_optimal_gpu_spec (c : vkd3d_multigpu_context) (w : Nat) (l : List F32)
    (hl : c.gpu_utilization = some l) (hlen : l.length = c.config.gpu_count)
    (hn : 1 ≤ c.config.gpu_count) :
    ∃ r ur, vkd3d_multigpu_get_optimal_gpu (some c) w = Outcome.ok r ∧
      r < c.config.gpu_count ∧ l[r]? = some ur ∧
      (∀ (j : Nat) uj, l[j]? = some uj → F32.lt uj ur = false) ∧
      (∀ j uj, j < r → l[j]? = some uj → uj.isNaN = true ∨ F32.lt ur uj = true) := by
  have h0 : 0 < l.length := by omega
  have hr0 : l[0]? = some (l.get ⟨0, h0⟩) := by simp [List.getElem?_eq_getElem h0]
  have hne : ¬ c.config.gpu_count = 0 := by omega
  unfold vkd3d_multigpu_get_optimal_gpu
  simp only [hne, if_false, hl]
  rw [read_of_lt l 0 h0]
  simp only [Outcome.bind]
  rw [← hlen]
  apply optimal_loop_spec l (l.length - 1) 1 0 (l.get ⟨0, h0⟩) (by omega) (by omega) hr0
  · intro j uj hj hju
    have : j = 0 := by omega
    subst this
    rw [hr0] at hju
    cases hju
    exact F32.lt_irrefl _
  · intro j uj hj
    omega

theorem sample_ctx_valid (u : List F32) : ctx_valid (sample_ctx u) := by
  refine ⟨⟨_, rfl, ?_⟩, ⟨_, rfl, ?_⟩, ⟨_, rfl, ?_⟩, ⟨_, rfl, ?_⟩, ⟨_, rfl, ?_⟩, ⟨_, rfl, ?_⟩⟩ <;>
    simp [sample_ctx]

theorem read_forall_of_mem {α : Type} (P : α → Prop) (l : List α) (h : ∀ u ∈ l, P u) :
    ∀ j u, read (some l) j = Outcome.ok u → P u := by
  intro j u hj
  rw [read_some] at hj
  exact h u (List.getElem?_mem hj)

theorem read_exists_of_valid {α : Type} (p : Option (List α)) (n r : Nat)
    (h : ∃ l, p = some l ∧ l.length = n) (hr : r < n) : ∃ v, read p r = Outcome.ok v := by
  obtain ⟨l, hl, hlen⟩ := h
  subst hl
  exact ⟨_, read_of_lt l r (by omega)⟩

/-! ## Array-filling loops -/

theorem write_of_lt {α : Type} (l : List α) (i : Nat) (v : α) (h : i < l.length) :
    write (some l) i v = Outcome.ok (some (l.set i v)) := by
  simp [write, h]

/-- One more iteration of a loop that stores `v` at index `i` and then fills
the indices `i+1 ..`: the block ends up with the targets `t j` on the whole
range and its old content below `i`. -/
theorem fill_step {α : Type} (t : Nat → Option α) (l l1 : List α) (i k : Nat) (v : α)
    (hi : i < l.length) (hv : t i = some v)
    (hlen : l1.length = (l.set i v).length)
    (hz : ∀ j : Nat, i + 1 ≤ j → j < i + 1 + k → l1[j]? = t j)
    (hp : ∀ j : Nat, j < i + 1 → l1[j]? = (l.set i v)[j]?) :
    l1.length = l.length ∧ (∀ j : Nat, i ≤ j → j < i + (k + 1) → l1[j]? = t j) ∧
      (∀ j : Nat, j < i → l1[j]? = l[j]?) := by
  refine ⟨by simpa using hlen, ?_, ?_⟩
  · intro j h1 h2
    rcases Nat.eq_or_lt_of_le h1 with h | h
    · subst h
      rw [hp i (by omega), List.getElem?_set_self hi, hv]
    · exact hz j (by omega) (by omega)
  · intro j hj
    rw [hp j (by omega), List.getElem?_set_ne (by omega)]

/-- The loop of `vkd3d_multigpu_reset_stats` on blocks that cover the index
range: it completes, zeroes the range in both statistics arrays, and changes
nothing else. -/
theorem reset_loop_spec :
    ∀ (k i : Nat) (ctx : vkd3d_multigpu_context) (lu : List F32) (lb : List Nat),
      ctx.gpu_utilization = some lu → ctx.gpu_bytes_transferred = some lb →
      i + k ≤ lu.length → i + k ≤ lb.length →
      ∃ lu1 lb1, reset_loop k i ctx = Outcome.ok
          { ctx with gpu_utilization := some lu1, gpu_bytes_transferred := some lb1 } ∧
        (lu1.length = lu.length ∧
          (∀ j : Nat, i ≤ j → j < i + k → lu1[j]? = some F32.zero) ∧
          (∀ j : Nat, j < i → lu1[j]? = lu[j]?)) ∧
        (lb1.length = lb.length ∧
          (∀ j : Nat, i ≤ j → j < i + k → lb1[j]? = some 0) ∧
          (∀ j : Nat, j < i → lb1[j]? = lb[j]?)) := by
  intro k
  induction k with
  | zero =>
    intro i ctx lu lb hu hb _ _
    refine ⟨lu, lb, ?_, ⟨rfl, ?_, fun _ _ => rfl⟩, ⟨rfl, ?_, fun _ _ => rfl⟩⟩
    · cases ctx
      simp only at hu hb
      subst hu hb
      rfl
    · intro j h1 h2
      omega
    · intro j h1 h2
      omega
  | succ k ih =>
    intro i ctx lu lb hu hb hlu hlb
    have hiu : i < lu.length := by omega
    have hib : i < lb.length := by omega
    obtain ⟨lu1, lb1, hres, ⟨h1, h2, h3⟩, ⟨h4, h5, h6⟩⟩ :=
      ih (i + 1)
        { ctx with gpu_utilization := some (lu.set i F32.zero),
                   gpu_bytes_transferred := some (lb.set i 0) }
        (lu.set i F32.zero) (lb.set i 0) rfl rfl (by simp; omega) (by simp; omega)
    refine ⟨lu1, lb1, ?_, fill_step (fun _ => some F32.zero) lu lu1 i k F32.zero hiu rfl h1 h2 h3,
      fill_step (fun _ => some 0) lb lb1 i k 0 hib rfl h4 h5 h6⟩
    unfold reset_loop
    rw [hu, hb, write_of_lt lu i _ hiu, write_of_lt lb i _ hib]
    simp only [Outcome.bind]
    rw [hres]

/-- Result of `vkd3d_multigpu_reset_stats` on a context with well-formed
statistics arrays. -/
theorem reset_stats_spec (c : vkd3d_multigpu_context) (hv : ctx_valid c) :
    ∃ lu lb, vkd3d_multigpu_reset_stats (some c) = Outcome.ok (some
        { c with gpu_utilization := some lu, gpu_bytes_transferred := some lb,
                 total_frames := 0 }) ∧
      lu.length = c.config.gpu_count ∧ lb.length = c.config.gpu_count ∧
      (∀ j : Nat, j < c.config.gpu_count → lu[j]? = some F32.zero) ∧
      (∀ j : Nat, j < c.config.gpu_count → lb[j]? = some 0) := by
  obtain ⟨_, _, _, _, ⟨lu, hu, hlu⟩, ⟨lb, hb, hlb⟩⟩ := hv
  obtain ⟨lu1, lb1, hres, ⟨h1, h2, _⟩, ⟨h4, h5, _⟩⟩ :=
    reset_loop_spec c.config.gpu_count 0 c lu lb hu hb (by omega) (by omega)
  refine ⟨lu1, lb1, ?_, by omega, by omega, fun j hj => h2 j (by omega) (by omega),
    fun j hj => h5 j (by omega) (by omega)⟩
  unfold vkd3d_multigpu_reset_stats
  simp only [hres, Outcome.bind]

/-- The initialisation loop of `vkd3d_multigpu_create` never touches a field
other than the three arrays it fills. -/
theorem create_loop_frame (cfg : vkd3d_device_group_config) :
    ∀ (k i : Nat) (ctx ctx1 : vkd3d_multigpu_context),
      create_loop cfg k i ctx = Outcome.ok ctx1 →
      ctx1 = { ctx with physical_devices := ctx1.physical_devices,
                        gpu_utilization := ctx1.gpu_utilization,
                        gpu_bytes_transferred := ctx1.gpu_bytes_transferred } := by
  intro k
  induction k with
  | zero =>
    intro i ctx ctx1 h
    unfold create_loop at h
    cases h
    rfl
  | succ k ih =>
    intro i ctx ctx1 h
    unfold create_loop at h
    cases hg : read cfg.gpus i with
    | fault => rw [hg] at h; cases h
    | ok g =>
      cases hp : write ctx.physical_devices i g.physical_device with
      | fault => rw [hg] at h; simp only [Outcome.bind, hp] at h; cases h
      | ok pd =>
        cases hu : write ctx.gpu_utilization i F32.zero with
        | fault => rw [hg] at h; simp only [Outcome.bind, hp, hu] at h; cases h
        | ok gu =>
          cases hb : write ctx.gpu_bytes_transferred i 0 with
          | fault => rw [hg] at h; simp only [Outcome.bind, hp, hu, hb] at h; cases h
          | ok gb =>
            rw [hg] at h
            simp only [Outcome.bind, hp, hu, hb] at h
            have := ih (i + 1) _ ctx1 h
            rw [this]

/-- The initialisation loop of `vkd3d_multigpu_create` on blocks that cover
the index range: it completes, copies the physical-device handles, and zeroes
both statistics arrays on the range. -/
theorem create_loop_spec (cfg : vkd3d_device_group_config) (lg : List vkd3d_gpu_info)
    (hg : cfg.gpus = some lg) :
    ∀ (k i : Nat) (ctx : vkd3d_multigpu_context) (lp : List Nat) (lu : List F32)
      (lb : List Nat),
      ctx.physical_devices = some lp → ctx.gpu_utilization = some lu →
      ctx.gpu_bytes_transferred = some lb →
      i + k ≤ lg.length → i + k ≤ lp.length → i + k ≤ lu.length → i + k ≤ lb.length →
      ∃ lp1 lu1 lb1, create_loop cfg k i ctx = Outcome.ok
          { ctx with physical_devices := some lp1, gpu_utilization := some lu1,
                     gpu_bytes_transferred := some lb1 } ∧
        (lp1.length = lp.length ∧
          (∀ j : Nat, i ≤ j → j < i + k →
            lp1[j]? = (lg[j]?).map vkd3d_gpu_info.physical_device) ∧
          (∀ j : Nat, j < i → lp1[j]? = lp[j]?)) ∧
        (lu1.length = lu.length ∧
          (∀ j : Nat, i ≤ j → j < i + k → lu1[j]? = some F32.zero) ∧
          (∀ j : Nat, j < i → lu1[j]? = lu[j]?)) ∧
        (lb1.length = lb.length ∧
          (∀ j : Nat, i ≤ j → j < i + k → lb1[j]? = some 0) ∧
          (∀ j : Nat, j < i → lb1[j]? = lb[j]?)) := by
  intro k
  induction k with
  | zero =>
    intro i ctx lp lu lb hp hu hb _ _ _ _
    refine ⟨lp, lu, lb, ?_, ⟨rfl, ?_, fun _ _ => rfl⟩, ⟨rfl, ?_, fun _ _ => rfl⟩,
      ⟨rfl, ?_, fun _ _ => rfl⟩⟩
    · cases ctx
      simp only at hp hu hb
      subst hp hu hb
      rfl
    · intro j h1 h2
      omega
    · intro j h1 h2
      omega
    · intro j h1 h2
      omega
  | succ k ih =>
    intro i ctx lp lu lb hp hu hb hlg hlp hlu hlb
    have hig : i < lg.length := by omega
    have hip : i < lp.length := by omega
    have hiu : i < lu.length := by omega
    have hib : i < lb.length := by omega
    obtain ⟨lp1, lu1, lb1, hres, ⟨p1, p2, p3⟩, ⟨h1, h2, h3⟩, ⟨h4, h5, h6⟩⟩ :=
      ih (i + 1)
        { ctx with physical_devices := some (lp.set i (lg.get ⟨i, hig⟩).physical_device),
                   gpu_utilization := some (lu.set i F32.zero),
                   gpu_bytes_transferred := some (lb.set i 0) }
        (lp.set i (lg.get ⟨i, hig⟩).physical_device) (lu.set i F32.zero) (lb.set i 0)
        rfl rfl rfl (by omega) (by simp; omega) (by simp; omega) (by simp; omega)
    refine ⟨lp1, lu1, lb1, ?_,
      fill_step (fun j => (lg[j]?).map vkd3d_gpu_info.physical_device) lp lp1 i k
        (lg.get ⟨i, hig⟩).physical_device hip (by simp [List.getElem?_eq_getElem hig]) p1 p2 p3,
      fill_step (fun _ => some F32.zero) lu lu1 i k F32.zero hiu rfl h1 h2 h3,
      fill_step (fun _ => some 0) lb lb1 i k 0 hib rfl h4 h5 h6⟩
    unfold create_loop
    rw [hg, hp, hu, hb, read_of_lt lg i hig]
    simp only [Outcome.bind]
    rw [write_of_lt lp i _ hip, write_of_lt lu i _ hiu, write_of_lt lb i _ hib]
    simp only [Outcome.bind]
    rw [hres]

/-! ## `vkd3d_multigpu_get_gpu_stats` and `vkd3d_multigpu_create` -/

/-- An in-range `vkd3d_multigpu_get_gpu_stats` stores the two array entries
through every non-`NULL` out-pointer. -/
theorem get_gpu_stats_spec (c : vkd3d_multigpu_context) (i : Nat) (lu : List F32)
    (lb : List Nat) (u : F32) (b : Nat) (hu : c.gpu_utilization = some lu)
    (hb : c.gpu_bytes_transferred = some lb) (hui : lu[i]? = some u) (hbi : lb[i]? = some b)
    (hi : i < c.config.gpu_count) (u0 : Option F32) (b0 : Option Nat) :
    vkd3d_multigpu_get_gpu_stats (some c) i u0 b0 =
      Outcome.ok (u0.map fun _ => u, b0.map fun _ => b) := by
  have hnot : ¬ i ≥ c.config.gpu_count := by omega
  have hru : read (some lu) i = Outcome.ok u := (read_some lu i u).2 hui
  have hrb : read (some lb) i = Outcome.ok b := (read_some lb i b).2 hbi
  unfold vkd3d_multigpu_get_gpu_stats
  simp only [hnot, if_false, hu, hb, hru, hrb]
  cases u0 <;> cases b0 <;> rfl

theorem malloc_some {α : Type} (f : Nat → α) (n : Nat) :
    malloc (some f) n = some ((List.range n).map f) := rfl

/-- With every allocation succeeding and `config->gpus` covering `gpu_count`
descriptors, `vkd3d_multigpu_create` returns a context: the config is copied
with the primary clamped, the three handle arrays without an initialiser keep
the allocator's content, and both statistics arrays are zeroed. -/
theorem create_spec (env : alloc_env) (cfg : vkd3d_device_group_config)
    (hok : env.all_ok) (hv : config_valid cfg) (hn : 1 ≤ cfg.gpu_count) :
    ∃ lp lu lb, vkd3d_multigpu_create env (some cfg) = Outcome.ok
        ⟨some
          { config := { cfg with
              primary_gpu := if cfg.primary_gpu < cfg.gpu_count then cfg.primary_gpu else 0 }
            instance_handle := 0
            physical_devices := some lp
            logical_devices := malloc env.logical_devices cfg.gpu_count
            compute_queues := malloc env.compute_queues cfg.gpu_count
            transfer_queues := malloc env.transfer_queues cfg.gpu_count
            frame_fences := none
            gpu_events := none
            frame_semaphores := none
            device_memories := none
            allocated_sizes := none
            total_frames := 0
            gpu_utilization := some lu
            gpu_bytes_transferred := some lb },
          some cfg, []⟩ ∧
      lp.length = cfg.gpu_count ∧ lu.length = cfg.gpu_count ∧ lb.length = cfg.gpu_count ∧
      (∀ j : Nat, j < cfg.gpu_count → lu[j]? = some F32.zero) ∧
      (∀ j : Nat, j < cfg.gpu_count → lb[j]? = some 0) := by
  obtain ⟨lg, hg, hlg⟩ := hv
  obtain ⟨h0, h1, h2, h3, h4, h5, h6⟩ := hok
  obtain ⟨fp, hfp⟩ := Option.isSome_iff_exists.1 h1
  obtain ⟨fl, hfl⟩ := Option.isSome_iff_exists.1 h2
  obtain ⟨fc, hfc⟩ := Option.isSome_iff_exists.1 h3
  obtain ⟨ft, hft⟩ := Option.isSome_iff_exists.1 h4
  obtain ⟨fu, hfu⟩ := Option.isSome_iff_exists.1 h5
  obtain ⟨fb, hfb⟩ := Option.isSome_iff_exists.1 h6
  have hne : ¬ cfg.gpu_count = 0 := by omega
  obtain ⟨lp1, lu1, lb1, hres, ⟨p1, _, _⟩, ⟨u1, u2, _⟩, ⟨b1, b2, _⟩⟩ :=
    create_loop_spec cfg lg hg cfg.gpu_count 0
      { config := cfg
        instance_handle := 0
        physical_devices := some ((List.range cfg.gpu_count).map fp)
        logical_devices := some ((List.range cfg.gpu_count).map fl)
        compute_queues := some ((List.range cfg.gpu_count).map fc)
        transfer_queues := some ((List.range cfg.gpu_count).map ft)
        frame_fences := none
        gpu_events := none
        frame_semaphores := none
        device_memories := none
        allocated_sizes := none
        total_frames := 0
        gpu_utilization := some ((List.range cfg.gpu_count).map fu)
        gpu_bytes_transferred := some ((List.range cfg.gpu_count).map fb) }
      _ _ _ rfl rfl rfl (by omega) (by simp) (by simp) (by simp)
  refine ⟨lp1, lu1, lb1, ?_, by simpa using p1, by simpa using u1, by simpa using b1,
    fun j hj => u2 j (by omega) (by omega), fun j hj => b2 j (by omega) (by omega)⟩
  unfold vkd3d_multigpu_create
  simp only [hne, if_false, h0, hfp, hfl, hfc, hft, hfu, hfb, malloc_some, Option.isNone_some,
    Bool.or_self, Bool.not_true, Bool.false_eq_true, hres, Outcome.bind]

/-- Whenever `vkd3d_multigpu_create` returns a context, the stored config is
the caller's config with the primary clamped, and the caller's config object
is left as it was. -/
theorem create_accepts (env : alloc_env) (cfg : vkd3d_device_group_config)
    (r : create_result) (ctx : vkd3d_multigpu_context)
    (h : vkd3d_multigpu_create env (some cfg) = Outcome.ok r) (hr : r.ret = some ctx) :
    1 ≤ cfg.gpu_count ∧ r.config = some cfg ∧
    ctx.config = { cfg with
      primary_gpu := if cfg.primary_gpu < cfg.gpu_count then cfg.primary_gpu else 0 } := by
  unfold vkd3d_multigpu_create at h
  by_cases h0 : cfg.gpu_count = 0
  · simp only [h0, if_true] at h
    cases h
    cases hr
  · simp only [h0, if_false] at h
    by_cases h1 : (!env.ctx) = true
    · simp only [h1, if_true] at h
      cases h
      cases hr
    · simp only [h1, Bool.false_eq_true, if_false] at h
      split at h
      · cases hd : vkd3d_multigpu_destroy (some
            { config := cfg
              instance_handle := 0
              physical_devices := malloc env.physical_devices cfg.gpu_count
              logical_devices := malloc env.logical_devices cfg.gpu_count
              compute_queues := malloc env.compute_queues cfg.gpu_count
              transfer_queues := malloc env.transfer_queues cfg.gpu_count
              frame_fences := none
              gpu_events := none
              frame_semaphores := none
              device_memories := none
              allocated_sizes := none
              total_frames := 0
              gpu_utilization := malloc env.gpu_utilization cfg.gpu_count
              gpu_bytes_transferred := malloc env.gpu_bytes_transferred cfg.gpu_count }) with
        | fault => rw [hd] at h; cases h
        | ok d =>
          rw [hd] at h
          cases h
          cases hr
      · cases hl : create_loop cfg cfg.gpu_count 0
            { config := cfg
              instance_handle := 0
              physical_devices := malloc env.physical_devices cfg.gpu_count
              logical_devices := malloc env.logical_devices cfg.gpu_count
              compute_queues := malloc env.compute_queues cfg.gpu_count
              transfer_queues := malloc env.transfer_queues cfg.gpu_count
              frame_fences := none
              gpu_events := none
              frame_semaphores := none
              device_memories := none
              allocated_sizes := none
              total_frames := 0
              gpu_utilization := malloc env.gpu_utilization cfg.gpu_count
              gpu_bytes_transferred := malloc env.gpu_bytes_transferred cfg.gpu_count } with
        | fault => rw [hl] at h; cases h
        | ok ctx1 =>
          rw [hl] at h
          have hf := create_loop_frame cfg _ _ _ ctx1 hl
          simp only [Outcome.bind] at h
          cases h
          simp only [Option.some.injEq] at hr
          subst hr
          refine ⟨by omega, rfl, ?_⟩
          rw [hf]

/-! ## Load balancer: `vkd3d_multigpu_get_optimal_gpu` -/

/-- C1: on a context with `gpu_count >= 1` whose utilizations all lie in
`[0.0, 1.0]`, `vkd3d_multigpu_get_optimal_gpu` returns an ordinal `r` below
`gpu_count` whose utilization is a minimum of the array:
`utilization[r] <= utilization[j]` for every `j < gpu_count`. -/
theorem C1_optimal_gpu_is_minimum (c : vkd3d_multigpu_context) (workload_size : Nat)
    (hv : ctx_valid c) (hn : 1 ≤ c.config.gpu_count)
    (hu : ∀ j u, j < c.config.gpu_count → read c.gpu_utilization j = Outcome.ok u →
      u.inUnit = true) :
    ∃ r ur, vkd3d_multigpu_get_optimal_gpu (some c) workload_size = Outcome.ok r ∧
      r < c.config.gpu_count ∧ read c.gpu_utilization r = Outcome.ok ur ∧
      ∀ j, j < c.config.gpu_count →
        ∃ uj, read c.gpu_utilization j = Outcome.ok uj ∧ F32.le ur uj = true := by
  obtain ⟨_, _, _, _, ⟨l, hl, hlen⟩, _⟩ := hv
  obtain ⟨r, ur, hres, hr, hur, hmin, _⟩ := get_optimal_gpu_spec c workload_size l hl hlen hn
  rw [hl] at hu ⊢
  have hrd : read (some l) r = Outcome.ok ur := (read_some l r ur).2 hur
  refine ⟨r, ur, hres, hr, hrd, ?_⟩
  intro j hj
  have hjl : j < l.length := by omega
  refine ⟨l.get ⟨j, hjl⟩, read_of_lt l j hjl, ?_⟩
  have hnr := F32.inUnit_not_nan (hu r ur hr hrd)
  have hnj := F32.inUnit_not_nan (hu j _ hj (read_of_lt l j hjl))
  have hlt := hmin j (l.get ⟨j, hjl⟩) ((read_some l j _).1 (read_of_lt l j hjl))
  exact F32.le_of_key hnr hnj (F32.not_lt_key hnj hnr hlt)

/-- C1 at utilizations `[0.8, 0.1, 0.5]`: the hypotheses hold and the result is
ordinal `1`. -/
theorem C1_optimal_gpu_is_minimum_witness :
    vkd3d_multigpu_get_optimal_gpu (some ctx_mixed) 100 = Outcome.ok 1 ∧
    ∃ r ur, vkd3d_multigpu_get_optimal_gpu (some ctx_mixed) 100 = Outcome.ok r ∧
      r < ctx_mixed.config.gpu_count ∧ read ctx_mixed.gpu_utilization r = Outcome.ok ur ∧
      ∀ j, j < ctx_mixed.config.gpu_count →
        ∃ uj, read ctx_mixed.gpu_utilization j = Outcome.ok uj ∧ F32.le ur uj = true :=
  ⟨by decide,
    C1_optimal_gpu_is_minimum ctx_mixed 100 (sample_ctx_valid _) (by decide)
      (fun j u _ h => read_forall_of_mem (fun u => u.inUnit = true) _ (by decide) j u h)⟩

/-- C2 fails as stated: with utilizations `[1.0, NaN, 0.5]` the scan returns
ordinal `2`, yet entry `1` (a NaN) is not strictly greater than entry `2`. -/
theorem C2_tie_break_counterexample :
    ctx_valid ctx_nan ∧ ctx_nan.config.gpu_count = 3 ∧
    vkd3d_multigpu_get_optimal_gpu (some ctx_nan) 0 = Outcome.ok 2 ∧
    ¬ (∀ j, j < 2 → ∃ uj ur, read ctx_nan.gpu_utilization j = Outcome.ok uj ∧
        read ctx_nan.gpu_utilization 2 = Outcome.ok ur ∧ F32.gt uj ur = true) := by
  refine ⟨sample_ctx_valid _, by decide, by decide, ?_⟩
  intro h
  obtain ⟨uj, ur, h1, h2, h3⟩ := h 1 (by decide)
  have e1 : uj = ⟨0x7FC00000⟩ := by
    have : read ctx_nan.gpu_utilization 1 = Outcome.ok ⟨0x7FC00000⟩ := by decide
    rw [this] at h1
    cases h1
    rfl
  have e2 : ur = ⟨0x3F000000⟩ := by
    have : read ctx_nan.gpu_utilization 2 = Outcome.ok ⟨0x3F000000⟩ := by decide
    rw [this] at h2
    cases h2
    rfl
  subst e1 e2
  revert h3
  decide

/-- C2 (amended): on a context with `gpu_count >= 1`, if `r` is the ordinal
returned by `vkd3d_multigpu_get_optimal_gpu`, every `j < r` has a utilization
that is NaN or strictly greater than `utilization[r]`.  So among entries that
are not NaN, ties resolve to the lowest ordinal. -/
theorem C2_tie_break_lowest_ordinal (c : vkd3d_multigpu_context) (workload_size : Nat)
    (hv : ctx_valid c) (hn : 1 ≤ c.config.gpu_count) :
    ∃ r ur, vkd3d_multigpu_get_optimal_gpu (some c) workload_size = Outcome.ok r ∧
      read c.gpu_utilization r = Outcome.ok ur ∧
      ∀ j, j < r → ∃ uj, read c.gpu_utilization j = Outcome.ok uj ∧
        (uj.isNaN = true ∨ F32.gt uj ur = true) := by
  obtain ⟨_, _, _, _, ⟨l, hl, hlen⟩, _⟩ := hv
  obtain ⟨r, ur, hres, hr, hur, _, hlow⟩ := get_optimal_gpu_spec c workload_size l hl hlen hn
  rw [hl]
  refine ⟨r, ur, hres, (read_some l r ur).2 hur, ?_⟩
  intro j hj
  have hjl : j < l.length := by omega
  refine ⟨l.get ⟨j, hjl⟩, read_of_lt l j hjl, ?_⟩
  exact hlow j _ hj ((read_some l j _).1 (read_of_lt l j hjl))

/-- C2 (amended) at utilizations `[0.2, 0.2, 0.2]`: the result is ordinal `0`. -/
theorem C2_tie_break_lowest_ordinal_witness :
    vkd3d_multigpu_get_optimal_gpu (some ctx_tied) 0 = Outcome.ok 0 ∧
    ∃ r ur, vkd3d_multigpu_get_optimal_gpu (some ctx_tied) 0 = Outcome.ok r ∧
      read ctx_tied.gpu_utilization r = Outcome.ok ur ∧
      ∀ j, j < r → ∃ uj, read ctx_tied.gpu_utilization j = Outcome.ok uj ∧
        (uj.isNaN = true ∨ F32.gt uj ur = true) :=
  ⟨by decide, C2_tie_break_lowest_ordinal ctx_tied 0 (sample_ctx_valid _) (by decide)⟩

/-- C3: `vkd3d_multigpu_get_optimal_gpu` returns `0` for an absent context and
for `gpu_count == 0`; for `gpu_count >= 1` it returns an ordinal strictly below
`gpu_count`, at which each of the six per-GPU arrays can be read. -/
theorem C3_optimal_gpu_in_range (c : vkd3d_multigpu_context) (workload_size : Nat) :
    vkd3d_multigpu_get_optimal_gpu none workload_size = Outcome.ok 0 ∧
    (c.config.gpu_count = 0 →
      vkd3d_multigpu_get_optimal_gpu (some c) workload_size = Outcome.ok 0) ∧
    (ctx_valid c → 1 ≤ c.config.gpu_count →
      ∃ r, vkd3d_multigpu_get_optimal_gpu (some c) workload_size = Outcome.ok r ∧
        r < c.config.gpu_count ∧
        (∃ v, read c.physical_devices r = Outcome.ok v) ∧
        (∃ v, read c.logical_devices r = Outcome.ok v) ∧
        (∃ v, read c.compute_queues r = Outcome.ok v) ∧
        (∃ v, read c.transfer_queues r = Outcome.ok v) ∧
        (∃ v, read c.gpu_utilization r = Outcome.ok v) ∧
        (∃ v, read c.gpu_bytes_transferred r = Outcome.ok v)) := by
  refine ⟨rfl, ?_, ?_⟩
  · intro h0
    simp [vkd3d_multigpu_get_optimal_gpu, h0]
  · intro hv hn
    obtain ⟨h1, h2, h3, h4, h5, h6⟩ := hv
    obtain ⟨l, hl, hlen⟩ := h5
    obtain ⟨r, ur, hres, hr, _⟩ := get_optimal_gpu_spec c workload_size l hl hlen hn
    exact ⟨r, hres, hr, read_exists_of_valid _ _ r h1 hr, read_exists_of_valid _ _ r h2 hr,
      read_exists_of_valid _ _ r h3 hr, read_exists_of_valid _ _ r h4 hr,
      read_exists_of_valid _ _ r ⟨l, hl, hlen⟩ hr, read_exists_of_valid _ _ r h6 hr⟩

/-- C3 on the three-GPU sample context. -/
theorem C3_optimal_gpu_in_range_witness :
    ctx_valid ctx_mixed ∧ 1 ≤ ctx_mixed.config.gpu_count ∧
    ∃ r, vkd3d_multigpu_get_optimal_gpu (some ctx_mixed) 5 = Outcome.ok r ∧
      r < ctx_mixed.config.gpu_count ∧
      (∃ v, read ctx_mixed.physical_devices r = Outcome.ok v) ∧
      (∃ v, read ctx_mixed.logical_devices r = Outcome.ok v) ∧
      (∃ v, read ctx_mixed.compute_queues r = Outcome.ok v) ∧
      (∃ v, read ctx_mixed.transfer_queues r = Outcome.ok v) ∧
      (∃ v, read ctx_mixed.gpu_utilization r = Outcome.ok v) ∧
      (∃ v, read ctx_mixed.gpu_bytes_transferred r = Outcome.ok v) :=
  ⟨sample_ctx_valid _, by decide,
    (C3_optimal_gpu_in_range ctx_mixed 5).2.2 (sample_ctx_valid _) (by decide)⟩

theorem env_ok_all_ok : env_ok.all_ok :=
  ⟨rfl, rfl, rfl, rfl, rfl, rfl, rfl⟩

theorem cfg_two_valid : config_valid cfg_two :=
  ⟨_, rfl, by decide⟩

theorem cfg_bad_primary_valid : config_valid cfg_bad_primary :=
  ⟨_, rfl, by decide⟩

/-! ## Device group context: creation -/

/-- C4: for a config with `gpu_count = N > 0` and all allocations succeeding,
`vkd3d_multigpu_create` returns a context whose `total_frames` is `0` and on
which `vkd3d_multigpu_get_gpu_stats` stores utilization `0.0` and
bytes_transferred `0` for every index below `N` (through each non-`NULL`
out-pointer, whatever the cell held before). -/
theorem C4_create_zeroes_stats (env : alloc_env) (cfg : vkd3d_device_group_config)
    (hok : env.all_ok) (hv : config_valid cfg) (hn : 0 < cfg.gpu_count) :
    ∃ ctx, vkd3d_multigpu_create env (some cfg) = Outcome.ok ⟨some ctx, some cfg, []⟩ ∧
      ctx.total_frames = 0 ∧
      ∀ i, i < cfg.gpu_count → ∀ (u0 : Option F32) (b0 : Option Nat),
        vkd3d_multigpu_get_gpu_stats (some ctx) i u0 b0 =
          Outcome.ok (u0.map fun _ => F32.zero, b0.map fun _ => 0) := by
  obtain ⟨lp, lu, lb, hres, _, _, _, hu, hb⟩ := create_spec env cfg hok hv hn
  refine ⟨_, hres, rfl, ?_⟩
  intro i hi u0 b0
  exact get_gpu_stats_spec _ i lu lb F32.zero 0 rfl rfl (hu i hi) (hb i hi) hi u0 b0

/-- C4 on the two-GPU sample config, with garbage in the fresh blocks and in
the caller's output cells. -/
theorem C4_create_zeroes_stats_witness :
    env_ok.all_ok ∧ config_valid cfg_two ∧ 0 < cfg_two.gpu_count ∧
    ∃ ctx, vkd3d_multigpu_create env_ok (some cfg_two) =
        Outcome.ok ⟨some ctx, some cfg_two, []⟩ ∧
      ctx.total_frames = 0 ∧
      ∀ i, i < cfg_two.gpu_count → ∀ (u0 : Option F32) (b0 : Option Nat),
        vkd3d_multigpu_get_gpu_stats (some ctx) i u0 b0 =
          Outcome.ok (u0.map fun _ => F32.zero, b0.map fun _ => 0) :=
  ⟨env_ok_all_ok, cfg_two_valid, by decide,
    C4_create_zeroes_stats env_ok cfg_two env_ok_all_ok cfg_two_valid (by decide)⟩

/-- C5: `vkd3d_multigpu_create` returns `NULL` for an absent config and for
`gpu_count == 0`; when every allocation succeeds it returns a context for
every config with `gpu_count >= 1`.  So, allocation success assumed, it fails
if and only if the config is absent or `gpu_count == 0`. -/
theorem C5_create_fails_iff (env : alloc_env) (cfg : vkd3d_device_group_config) :
    vkd3d_multigpu_create env none = Outcome.ok ⟨none, none, []⟩ ∧
    (cfg.gpu_count = 0 →
      vkd3d_multigpu_create env (some cfg) = Outcome.ok ⟨none, some cfg, []⟩) ∧
    (env.all_ok → config_valid cfg → 1 ≤ cfg.gpu_count →
      ∃ ctx, vkd3d_multigpu_create env (some cfg) = Outcome.ok ⟨some ctx, some cfg, []⟩) ∧
    (env.all_ok → config_valid cfg →
      ((∃ r, vkd3d_multigpu_create env (some cfg) = Outcome.ok r ∧ r.ret = none) ↔
        cfg.gpu_count = 0)) := by
  have hzero : cfg.gpu_count = 0 →
      vkd3d_multigpu_create env (some cfg) = Outcome.ok ⟨none, some cfg, []⟩ := by
    intro h0
    simp [vkd3d_multigpu_create, h0]
  refine ⟨rfl, hzero, ?_, ?_⟩
  · intro hok hv hn
    obtain ⟨lp, lu, lb, hres, _⟩ := create_spec env cfg hok hv hn
    exact ⟨_, hres⟩
  · intro hok hv
    constructor
    · rintro ⟨r, hr, hnone⟩
      by_contra hne
      obtain ⟨lp, lu, lb, hres, _⟩ := create_spec env cfg hok hv (by omega)
      rw [hres] at hr
      cases hr
      cases hnone
    · intro h0
      exact ⟨_, hzero h0, rfl⟩

/-- C5 on the sample configs: a zero-GPU config is rejected, the two-GPU
config is accepted. -/
theorem C5_create_fails_iff_witness :
    vkd3d_multigpu_create env_ok (some { cfg_two with gpu_count := 0 }) =
      Outcome.ok ⟨none, some { cfg_two with gpu_count := 0 }, []⟩ ∧
    ∃ ctx, vkd3d_multigpu_create env_ok (some cfg_two) =
      Outcome.ok ⟨some ctx, some cfg_two, []⟩ :=
  ⟨(C5_create_fails_iff env_ok { cfg_two with gpu_count := 0 }).2.1 rfl,
    (C5_create_fails_iff env_ok cfg_two).2.2.1 env_ok_all_ok cfg_two_valid (by decide)⟩

/-- C6: whenever `vkd3d_multigpu_create` returns a context, its stored config
equals the input in every field except `primary_gpu`; the stored `primary_gpu`
is `config.primary_gpu` when that is below `gpu_count` and `0` otherwise, hence
always below `gpu_count`; and the caller's config object is unchanged. -/
theorem C6_create_copies_config (env : alloc_env) (cfg : vkd3d_device_group_config)
    (r : create_result) (ctx : vkd3d_multigpu_context)
    (h : vkd3d_multigpu_create env (some cfg) = Outcome.ok r) (hr : r.ret = some ctx) :
    ctx.config.gpu_count = cfg.gpu_count ∧ ctx.config.gpus = cfg.gpus ∧
    ctx.config.gpu_affinity_mask = cfg.gpu_affinity_mask ∧
    ctx.config.load_balance_enabled = cfg.load_balance_enabled ∧
    ctx.config.gpu_load_threshold = cfg.gpu_load_threshold ∧
    ctx.config.frame_pacing_enabled = cfg.frame_pacing_enabled ∧
    ctx.config.frame_interval_ms = cfg.frame_interval_ms ∧
    (cfg.primary_gpu < cfg.gpu_count → ctx.config.primary_gpu = cfg.primary_gpu) ∧
    (cfg.gpu_count ≤ cfg.primary_gpu → ctx.config.primary_gpu = 0) ∧
    ctx.config.primary_gpu < ctx.config.gpu_count ∧
    r.config = some cfg := by
  obtain ⟨hn, hcfg, hc⟩ := create_accepts env cfg r ctx h hr
  rw [hc]
  refine ⟨rfl, rfl, rfl, rfl, rfl, rfl, rfl, ?_, ?_, ?_, hcfg⟩
  · intro hlt
    simp [hlt]
  · intro hge
    have : ¬ cfg.primary_gpu < cfg.gpu_count := by omega
    simp [this]
  · show (if cfg.primary_gpu < cfg.gpu_count then cfg.primary_gpu else 0) < cfg.gpu_count
    split
    · assumption
    · omega

/-- C6 on a two-GPU config whose primary is `5`: the context is created and
its stored primary is `0`. -/
theorem C6_create_copies_config_witness :
    ∃ r ctx, vkd3d_multigpu_create env_ok (some cfg_bad_primary) = Outcome.ok r ∧
      r.ret = some ctx ∧ cfg_bad_primary.primary_gpu = 5 ∧
      ctx.config.gpu_count = 2 ∧ ctx.config.primary_gpu = 0 ∧
      r.config = some cfg_bad_primary := by
  obtain ⟨lp, lu, lb, hres, _⟩ :=
    create_spec env_ok cfg_bad_primary env_ok_all_ok cfg_bad_primary_valid (by decide)
  have hc := C6_create_copies_config env_ok cfg_bad_primary _ _ hres rfl
  exact ⟨_, _, hres, rfl, rfl, hc.1, hc.2.2.2.2.2.2.2.2.1 (by decide), hc.2.2.2.2.2.2.2.2.2.2⟩

/-! ## Device group context: primary GPU -/

/-- C7: `vkd3d_multigpu_set_primary_gpu` fails when `gpu_index >= gpu_count`
(and on a `NULL` context) and then leaves the context unchanged; when
`gpu_index < gpu_count` it succeeds, sets `primary_gpu` to `gpu_index`, and
changes no other field of the context. -/
theorem C7_set_primary_gpu (c : vkd3d_multigpu_context) (gpu_index : Nat) :
    VK_ERROR_INITIALIZATION_FAILED ≠ VK_SUCCESS ∧
    vkd3d_multigpu_set_primary_gpu none gpu_index = (VK_ERROR_INITIALIZATION_FAILED, none) ∧
    (c.config.gpu_count ≤ gpu_index →
      vkd3d_multigpu_set_primary_gpu (some c) gpu_index =
        (VK_ERROR_INITIALIZATION_FAILED, some c)) ∧
    (gpu_index < c.config.gpu_count →
      ∃ c1, vkd3d_multigpu_set_primary_gpu (some c) gpu_index = (VK_SUCCESS, some c1) ∧
        c1.config.primary_gpu = gpu_index ∧
        c1 = { c with config := { c.config with primary_gpu := gpu_index } } ∧
        c1.config.gpu_count = c.config.gpu_count ∧
        c1.config.gpu_load_threshold = c.config.gpu_load_threshold ∧
        c1.config.frame_pacing_enabled = c.config.frame_pacing_enabled ∧
        c1.config.frame_interval_ms = c.config.frame_interval_ms ∧
        c1.total_frames = c.total_frames ∧
        c1.gpu_utilization = c.gpu_utilization ∧
        c1.gpu_bytes_transferred = c.gpu_bytes_transferred ∧
        c1.physical_devices = c.physical_devices ∧
        c1.logical_devices = c.logical_devices ∧
        c1.compute_queues = c.compute_queues ∧
        c1.transfer_queues = c.transfer_queues) := by
  refine ⟨by decide, rfl, ?_, ?_⟩
  · intro hge
    simp [vkd3d_multigpu_set_primary_gpu, hge]
  · intro hlt
    have hnot : ¬ gpu_index ≥ c.config.gpu_count := by omega
    refine ⟨{ c with config := { c.config with primary_gpu := gpu_index } }, ?_, rfl, rfl,
      rfl, rfl, rfl, rfl, rfl, rfl, rfl, rfl, rfl, rfl, rfl⟩
    simp only [vkd3d_multigpu_set_primary_gpu, hnot, if_false]

/-- C7 on the three-GPU sample context (primary `0`): index `3` is rejected
and the context is unchanged; index `2` is accepted and becomes the primary. -/
theorem C7_set_primary_gpu_witness :
    vkd3d_multigpu_set_primary_gpu (some ctx_mixed) 3 =
      (VK_ERROR_INITIALIZATION_FAILED, some ctx_mixed) ∧
    ∃ c1, vkd3d_multigpu_set_primary_gpu (some ctx_mixed) 2 = (VK_SUCCESS, some c1) ∧
      c1.config.primary_gpu = 2 :=
  ⟨(C7_set_primary_gpu ctx_mixed 3).2.2.1 (by decide),
    let ⟨c1, h1, h2, _⟩ := (C7_set_primary_gpu ctx_mixed 2).2.2.2 (by decide)
    ⟨c1, h1, h2⟩⟩

/-! ## Statistics aggregator -/

/-- C8 fails as stated: on the one-GPU sample context, the out-of-range index
`1` with output cells holding `0.5` and `7` leaves the cells at `0.5` and `7`;
they are not `0.0` and `0` after the call. -/
theorem C8_get_gpu_stats_counterexample :
    ctx_valid ctx_single ∧ ctx_single.config.gpu_count ≤ 1 ∧
    vkd3d_multigpu_get_gpu_stats (some ctx_single) 1 (some ⟨0x3F000000⟩) (some 7) =
      Outcome.ok (some ⟨0x3F000000⟩, some 7) ∧
    vkd3d_multigpu_get_gpu_stats (some ctx_single) 1 (some ⟨0x3F000000⟩) (some 7) ≠
      Outcome.ok (some F32.zero, some 0) ∧
    F32.feq ⟨0x3F000000⟩ F32.zero = false :=
  ⟨sample_ctx_valid _, by decide, by decide, by decide, by decide⟩

/-- C8 (amended): for every index `>= gpu_count`, `vkd3d_multigpu_get_gpu_stats`
writes nothing: both output cells hold after the call what they held before
it.  For every index `< gpu_count` it stores exactly `gpu_utilization[index]`
and `gpu_bytes_transferred[index]` through each non-`NULL` out-pointer. -/
theorem C8_get_gpu_stats (c : vkd3d_multigpu_context) (gpu_index : Nat)
    (utilization : Option F32) (bytes_transferred : Option Nat) :
    (c.config.gpu_count ≤ gpu_index →
      vkd3d_multigpu_get_gpu_stats (some c) gpu_index utilization bytes_transferred =
        Outcome.ok (utilization, bytes_transferred)) ∧
    (ctx_valid c → gpu_index < c.config.gpu_count →
      ∃ u b, read c.gpu_utilization gpu_index = Outcome.ok u ∧
        read c.gpu_bytes_transferred gpu_index = Outcome.ok b ∧
        vkd3d_multigpu_get_gpu_stats (some c) gpu_index utilization bytes_transferred =
          Outcome.ok (utilization.map fun _ => u, bytes_transferred.map fun _ => b)) := by
  constructor
  · intro hge
    simp [vkd3d_multigpu_get_gpu_stats, hge]
  · intro hv hlt
    obtain ⟨_, _, _, _, ⟨lu, hu, hlu⟩, ⟨lb, hb, hlb⟩⟩ := hv
    have hiu : gpu_index < lu.length := by omega
    have hib : gpu_index < lb.length := by omega
    refine ⟨lu.get ⟨gpu_index, hiu⟩, lb.get ⟨gpu_index, hib⟩, ?_, ?_, ?_⟩
    · rw [hu]
      exact read_of_lt lu gpu_index hiu
    · rw [hb]
      exact read_of_lt lb gpu_index hib
    · exact get_gpu_stats_spec c gpu_index lu lb _ _ hu hb
        (by simp [List.getElem?_eq_getElem hiu]) (by simp [List.getElem?_eq_getElem hib])
        hlt utilization bytes_transferred

/-- C8 (amended) on the two-GPU sample context: index `2` leaves the cells as
they were, index `1` reports `0.1` and `1024`. -/
theorem C8_get_gpu_stats_witness :
    vkd3d_multigpu_get_gpu_stats (some ctx_pair) 2 (some ⟨0x3F000000⟩) (some 7) =
      Outcome.ok (some ⟨0x3F000000⟩, some 7) ∧
    vkd3d_multigpu_get_gpu_stats (some ctx_pair) 1 (some ⟨0x3F000000⟩) (some 7) =
      Outcome.ok (some ⟨0x3DCCCCCD⟩, some 1024) ∧
    ∃ u b, read ctx_pair.gpu_utilization 1 = Outcome.ok u ∧
      read ctx_pair.gpu_bytes_transferred 1 = Outcome.ok b ∧
      vkd3d_multigpu_get_gpu_stats (some ctx_pair) 1 (some ⟨0x3F000000⟩) (some 7) =
        Outcome.ok ((some (⟨0x3F000000⟩ : F32)).map fun _ => u, (some 7).map fun _ => b) :=
  ⟨(C8_get_gpu_stats ctx_pair 2 (some ⟨0x3F000000⟩) (some 7)).1 (by decide), by decide,
    (C8_get_gpu_stats ctx_pair 1 (some ⟨0x3F000000⟩) (some 7)).2 (sample_ctx_valid _)
      (by decide)⟩

/-- C9 fails as stated: after `vkd3d_multigpu_reset_stats` on the one-GPU
sample context, a `vkd3d_multigpu_get_gpu_stats` call at the out-of-range index
`1` with output cells holding `0.5` and `7` leaves them at `0.5` and `7`. -/
theorem C9_reset_then_stats_counterexample :
    ctx_valid ctx_single ∧
    ((vkd3d_multigpu_reset_stats (some ctx_single)).bind fun c1 =>
        vkd3d_multigpu_get_gpu_stats c1 1 (some ⟨0x3F000000⟩) (some 7)) =
      Outcome.ok (some ⟨0x3F000000⟩, some 7) ∧
    ((vkd3d_multigpu_reset_stats (some ctx_single)).bind fun c1 =>
        vkd3d_multigpu_get_gpu_stats c1 1 (some ⟨0x3F000000⟩) (some 7)) ≠
      Outcome.ok (some F32.zero, some 0) :=
  ⟨sample_ctx_valid _, by decide, by decide⟩

/-- C9 (amended): whatever statistics a context held, after
`vkd3d_multigpu_reset_stats` its `total_frames` is `0` and every
`vkd3d_multigpu_get_gpu_stats` call at an index `< gpu_count` stores
utilization `0.0` and bytes_transferred `0` through each non-`NULL`
out-pointer; a call at an index `>= gpu_count` writes nothing. -/
theorem C9_reset_then_stats (c : vkd3d_multigpu_context) (hv : ctx_valid c) :
    ∃ c1, vkd3d_multigpu_reset_stats (some c) = Outcome.ok (some c1) ∧
      c1.total_frames = 0 ∧
      (∀ i, i < c.config.gpu_count → ∀ (u0 : Option F32) (b0 : Option Nat),
        vkd3d_multigpu_get_gpu_stats (some c1) i u0 b0 =
          Outcome.ok (u0.map fun _ => F32.zero, b0.map fun _ => 0)) ∧
      (∀ i, c.config.gpu_count ≤ i → ∀ (u0 : Option F32) (b0 : Option Nat),
        vkd3d_multigpu_get_gpu_stats (some c1) i u0 b0 = Outcome.ok (u0, b0)) := by
  obtain ⟨lu, lb, hres, _, _, hu, hb⟩ := reset_stats_spec c hv
  refine ⟨_, hres, rfl, ?_, ?_⟩
  · intro i hi u0 b0
    exact get_gpu_stats_spec
      { c with gpu_utilization := some lu, gpu_bytes_transferred := some lb, total_frames := 0 }
      i lu lb F32.zero 0 rfl rfl (hu i hi) (hb i hi) hi u0 b0
  · intro i hi u0 b0
    have hge : i ≥ c.config.gpu_count := hi
    simp [vkd3d_multigpu_get_gpu_stats, hge]

/-- C9 (amended) on the two-GPU sample context, which holds utilizations
`[0.9, 0.1]`, `1024` bytes per GPU and `7` frames. -/
theorem C9_reset_then_stats_witness :
    ctx_valid ctx_pair ∧ ctx_pair.total_frames = 7 ∧
    ∃ c1, vkd3d_multigpu_reset_stats (some ctx_pair) = Outcome.ok (some c1) ∧
      c1.total_frames = 0 ∧
      (∀ i, i < ctx_pair.config.gpu_count → ∀ (u0 : Option F32) (b0 : Option Nat),
        vkd3d_multigpu_get_gpu_stats (some c1) i u0 b0 =
          Outcome.ok (u0.map fun _ => F32.zero, b0.map fun _ => 0)) ∧
      (∀ i, ctx_pair.config.gpu_count ≤ i → ∀ (u0 : Option F32) (b0 : Option Nat),
        vkd3d_multigpu_get_gpu_stats (some c1) i u0 b0 = Outcome.ok (u0, b0)) :=
  ⟨sample_ctx_valid _, rfl, C9_reset_then_stats ctx_pair (sample_ctx_valid _)⟩

/-- C10: `vkd3d_multigpu_reset_stats` changes only the statistics: the stored
config (`gpu_count`, `primary_gpu`, load-balance flag and threshold,
frame-pacing flag and interval, and the rest) and every physical-device,
logical-device and queue handle are the same after the call as before it, as
is every other field that is not a statistic. -/
theorem C10_reset_stats_frame (c : vkd3d_multigpu_context) (hv : ctx_valid c) :
    ∃ c1, vkd3d_multigpu_reset_stats (some c) = Outcome.ok (some c1) ∧
      c1.config = c.config ∧
      c1.config.gpu_count = c.config.gpu_count ∧
      c1.config.primary_gpu = c.config.primary_gpu ∧
      c1.config.load_balance_enabled = c.config.load_balance_enabled ∧
      c1.config.gpu_load_threshold = c.config.gpu_load_threshold ∧
      c1.config.frame_pacing_enabled = c.config.frame_pacing_enabled ∧
      c1.config.frame_interval_ms = c.config.frame_interval_ms ∧
      c1.physical_devices = c.physical_devices ∧
      c1.logical_devices = c.logical_devices ∧
      c1.compute_queues = c.compute_queues ∧
      c1.transfer_queues = c.transfer_queues ∧
      c1.instance_handle = c.instance_handle ∧
      c1.frame_fences = c.frame_fences ∧
      c1.gpu_events = c.gpu_events ∧
      c1.frame_semaphores = c.frame_semaphores ∧
      c1.device_memories = c.device_memories ∧
      c1.allocated_sizes = c.allocated_sizes := by
  obtain ⟨lu, lb, hres, _⟩ := reset_stats_spec c hv
  exact ⟨_, hres, rfl, rfl, rfl, rfl, rfl, rfl, rfl, rfl, rfl, rfl, rfl, rfl, rfl, rfl, rfl,
    rfl, rfl⟩

/-- C10 on the two-GPU sample context. -/
theorem C10_reset_stats_frame_witness :
    ctx_valid ctx_pair ∧
    ∃ c1, vkd3d_multigpu_reset_stats (some ctx_pair) = Outcome.ok (some c1) ∧
      c1.config = ctx_pair.config ∧
      c1.physical_devices = ctx_pair.physical_devices ∧
      c1.logical_devices = ctx_pair.logical_devices ∧
      c1.compute_queues = ctx_pair.compute_queues ∧
      c1.transfer_queues = ctx_pair.transfer_queues :=
  ⟨sample_ctx_valid _,
    let ⟨c1, h, hc, _, _, _, _, _, _, hp, hl, hq, ht, _⟩ :=
      C10_reset_stats_frame ctx_pair (sample_ctx_valid _)
    ⟨c1, h, hc, hp, hl, hq, ht⟩⟩

/-! ## Load balancer: threshold and frame pacing -/

/-- On a non-`NULL` context `vkd3d_multigpu_set_load_balance_threshold`
succeeds exactly when neither `threshold < 0.0f` nor `threshold > 1.0f` holds,
that is when the threshold lies in `[0.0, 1.0]` or is NaN; on success only
`gpu_load_threshold` changes, on failure nothing does. -/
theorem set_load_balance_threshold_spec (c : vkd3d_multigpu_context) (threshold : F32) :
    ((threshold.isNaN = true ∨ threshold.inUnit = true) →
      vkd3d_multigpu_set_load_balance_threshold (some c) threshold =
        (VK_SUCCESS,
          some { c with config := { c.config with gpu_load_threshold := threshold } })) ∧
    (¬ (threshold.isNaN = true ∨ threshold.inUnit = true) →
      vkd3d_multigpu_set_load_balance_threshold (some c) threshold =
        (VK_ERROR_INITIALIZATION_FAILED, some c)) := by
  have hz : F32.zero.isNaN = false := by decide
  have ho : F32.one.isNaN = false := by decide
  by_cases hnan : threshold.isNaN = true
  · constructor
    · intro _
      simp [vkd3d_multigpu_set_load_balance_threshold, F32.lt, F32.gt, hnan]
    · intro h
      exact absurd (Or.inl hnan) h
  · have hn : threshold.isNaN = false := by simpa using hnan
    by_cases hu : threshold.inUnit = true
    · constructor
      · intro _
        have h1 : F32.zero.key ≤ threshold.key ∧ threshold.key ≤ F32.one.key := by
          simpa [F32.inUnit, F32.le, hn, hz, ho] using hu
        have l1 : F32.lt threshold F32.zero = false := F32.lt_false_of_key h1.1
        have l2 : F32.gt threshold F32.one = false := F32.lt_false_of_key h1.2
        simp [vkd3d_multigpu_set_load_balance_threshold, l1, l2]
      · intro h
        exact absurd (Or.inr hu) h
    · constructor
      · intro h
        rcases h with h | h
        · exact absurd h hnan
        · exact absurd h hu
      · intro _
        have h1 : ¬ (F32.zero.key ≤ threshold.key ∧ threshold.key ≤ F32.one.key) := by
          simpa [F32.inUnit, F32.le, hn, hz, ho] using hu
        have l3 : (F32.lt threshold F32.zero || F32.gt threshold F32.one) = true := by
          by_cases hk : F32.zero.key ≤ threshold.key
          · have hk2 : F32.one.key < threshold.key := by
              by_contra hcon
              exact h1 ⟨hk, by omega⟩
            have : F32.gt threshold F32.one = true := F32.lt_of_key ho hn hk2
            simp [this]
          · have : F32.lt threshold F32.zero = true := F32.lt_of_key hn hz (by omega)
            simp [this]
        simp [vkd3d_multigpu_set_load_balance_threshold, l3]

/-- The sample thresholds: `1.5` and `-0.1` are rejected and leave the stored
threshold alone; `0.0` and `1.0` are accepted and stored. -/
theorem set_load_balance_threshold_samples :
    vkd3d_multigpu_set_load_balance_threshold (some ctx_pair) ⟨0x3FC00000⟩ =
      (VK_ERROR_INITIALIZATION_FAILED, some ctx_pair) ∧
    vkd3d_multigpu_set_load_balance_threshold (some ctx_pair) ⟨0xBDCCCCCD⟩ =
      (VK_ERROR_INITIALIZATION_FAILED, some ctx_pair) ∧
    vkd3d_multigpu_set_load_balance_threshold (some ctx_pair) F32.zero =
      (VK_SUCCESS,
        some { ctx_pair with config := { ctx_pair.config with gpu_load_threshold := F32.zero } }) ∧
    vkd3d_multigpu_set_load_balance_threshold (some ctx_pair) F32.one =
      (VK_SUCCESS,
        some { ctx_pair with config := { ctx_pair.config with gpu_load_threshold := F32.one } }) := by
  decide

/-- C11 (defect): a NaN threshold is not in `[0.0, 1.0]` (both `0.0 <= NaN` and
`NaN <= 1.0` are false), yet `vkd3d_multigpu_set_load_balance_threshold`
returns `VK_SUCCESS` for it and stores the NaN as `gpu_load_threshold`. -/
theorem C11_threshold_accepts_nan :
    f32_nan.isNaN = true ∧ F32.le F32.zero f32_nan = false ∧ F32.le f32_nan F32.one = false ∧
    vkd3d_multigpu_set_load_balance_threshold (some ctx_pair) f32_nan =
      (VK_SUCCESS,
        some { ctx_pair with config := { ctx_pair.config with gpu_load_threshold := f32_nan } }) ∧
    ctx_pair.config.gpu_load_threshold ≠ f32_nan := by
  decide

/-- C12: on a non-`NULL` context `vkd3d_multigpu_set_frame_pacing` succeeds for
every pair `(enabled, frame_interval_ms)`, stores exactly those two values in
the config, and changes no other field of the context. -/
theorem C12_set_frame_pacing (c : vkd3d_multigpu_context) (enabled frame_interval_ms : Nat) :
    ∃ c1, vkd3d_multigpu_set_frame_pacing (some c) enabled frame_interval_ms =
        (VK_SUCCESS, some c1) ∧
      c1.config.frame_pacing_enabled = enabled ∧
      c1.config.frame_interval_ms = frame_interval_ms ∧
      c1 = { c with config := { c.config with
        frame_pacing_enabled := enabled, frame_interval_ms := frame_interval_ms } } ∧
      c1.config.gpu_count = c.config.gpu_count ∧ c1.config.gpus = c.config.gpus ∧
      c1.config.primary_gpu = c.config.primary_gpu ∧
      c1.config.gpu_affinity_mask = c.config.gpu_affinity_mask ∧
      c1.config.load_balance_enabled = c.config.load_balance_enabled ∧
      c1.config.gpu_load_threshold = c.config.gpu_load_threshold ∧
      c1.instance_handle = c.instance_handle ∧
      c1.physical_devices = c.physical_devices ∧ c1.logical_devices = c.logical_devices ∧
      c1.compute_queues = c.compute_queues ∧ c1.transfer_queues = c.transfer_queues ∧
      c1.frame_fences = c.frame_fences ∧ c1.gpu_events = c.gpu_events ∧
      c1.frame_semaphores = c.frame_semaphores ∧ c1.device_memories = c.device_memories ∧
      c1.allocated_sizes = c.allocated_sizes ∧ c1.total_frames = c.total_frames ∧
      c1.gpu_utilization = c.gpu_utilization ∧
      c1.gpu_bytes_transferred = c.gpu_bytes_transferred :=
  ⟨_, rfl, rfl, rfl, rfl, rfl, rfl, rfl, rfl, rfl, rfl, rfl, rfl, rfl, rfl, rfl, rfl, rfl, rfl,
    rfl, rfl, rfl, rfl, rfl⟩

/-- C15: on a context with `gpu_count >= 1`, `vkd3d_multigpu_get_optimal_gpu`
called after `vkd3d_multigpu_reset_stats` returns ordinal `0`, for every
workload hint and whatever the utilizations were before the reset. -/
theorem C15_optimal_gpu_after_reset (c : vkd3d_multigpu_context) (workload_size : Nat)
    (hv : ctx_valid c) (hn : 1 ≤ c.config.gpu_count) :
    ∃ c1, vkd3d_multigpu_reset_stats (some c) = Outcome.ok (some c1) ∧
      vkd3d_multigpu_get_optimal_gpu (some c1) workload_size = Outcome.ok 0 := by
  obtain ⟨lu, lb, hres, hlu, _, hu, _⟩ := reset_stats_spec c hv
  refine ⟨_, hres, ?_⟩
  obtain ⟨r, ur, hr, hlt, hur, _, hlow⟩ := get_optimal_gpu_spec
    { c with gpu_utilization := some lu, gpu_bytes_transferred := some lb, total_frames := 0 }
    workload_size lu rfl hlu hn
  have hr0 : r = 0 := by
    by_contra hne
    have hzr : lu[r]? = some F32.zero := hu r hlt
    rw [hzr] at hur
    cases hur
    rcases hlow 0 F32.zero (by omega) (hu 0 (by omega)) with h | h
    · revert h
      decide
    · revert h
      decide
  rw [hr, hr0]

/-- C15 on two GPUs with utilizations `[0.9, 0.1]`: before the reset the
selection with hint `100` is ordinal `1`, after it ordinal `0`. -/
theorem C15_optimal_gpu_after_reset_witness :
    vkd3d_multigpu_get_optimal_gpu (some ctx_pair) 100 = Outcome.ok 1 ∧
    ∃ c1, vkd3d_multigpu_reset_stats (some ctx_pair) = Outcome.ok (some c1) ∧
      vkd3d_multigpu_get_optimal_gpu (some c1) 100 = Outcome.ok 0 :=
  ⟨by decide, C15_optimal_gpu_after_reset ctx_pair 100 (sample_ctx_valid _) (by decide)⟩

/-- C20: the result of `vkd3d_multigpu_get_optimal_gpu` depends only on
`gpu_count` and the utilization array: two contexts that agree on both give the
same result for any two workload hints, whatever their other fields hold; on a
non-empty group with a well-formed utilization array that common result is an
ordinal. -/
theorem C20_optimal_gpu_depends_on_utilization (c1 c2 : vkd3d_multigpu_context)
    (h1 h2 : Nat) (hcount : c1.config.gpu_count = c2.config.gpu_count)
    (hutil : c1.gpu_utilization = c2.gpu_utilization) :
    vkd3d_multigpu_get_optimal_gpu (some c1) h1 = vkd3d_multigpu_get_optimal_gpu (some c2) h2 ∧
    (ctx_valid c1 → 1 ≤ c1.config.gpu_count →
      ∃ r, vkd3d_multigpu_get_optimal_gpu (some c1) h1 = Outcome.ok r ∧
        vkd3d_multigpu_get_optimal_gpu (some c2) h2 = Outcome.ok r) := by
  have heq : vkd3d_multigpu_get_optimal_gpu (some c1) h1 =
      vkd3d_multigpu_get_optimal_gpu (some c2) h2 := by
    simp only [vkd3d_multigpu_get_optimal_gpu, hcount, hutil]
  refine ⟨heq, ?_⟩
  intro hv hn
  obtain ⟨_, _, _, _, ⟨l, hl, hlen⟩, _⟩ := hv
  obtain ⟨r, ur, hr, _⟩ := get_optimal_gpu_spec c1 h1 l hl hlen hn
  exact ⟨r, hr, heq ▸ hr⟩

/-- C20 on the three-GPU sample context and a copy with another primary GPU,
load-balance flag, threshold and frame-pacing settings: hints `0` and `100`
both give ordinal `1`. -/
theorem C20_optimal_gpu_depends_on_utilization_witness :
    vkd3d_multigpu_get_optimal_gpu (some ctx_mixed) 0 = Outcome.ok 1 ∧
    vkd3d_multigpu_get_optimal_gpu (some ctx_mixed) 0 =
      vkd3d_multigpu_get_optimal_gpu
        (some { ctx_mixed with config := { ctx_mixed.config with
          primary_gpu := 2, load_balance_enabled := 0, gpu_load_threshold := F32.one,
          frame_pacing_enabled := 1, frame_interval_ms := 33 } }) 100 :=
  ⟨by decide,
    (C20_optimal_gpu_depends_on_utilization ctx_mixed
      { ctx_mixed with config := { ctx_mixed.config with
        primary_gpu := 2, load_balance_enabled := 0, gpu_load_threshold := F32.one,
        frame_pacing_enabled := 1, frame_interval_ms := 33 } } 0 100 rfl rfl).1⟩

/-! ## Result codes and device-group materialisation -/

/-- C16 fails as stated: an out-of-range `set_primary_gpu`, an out-of-range
`set_load_balance_threshold` (`1.5`) and `create_device_group` on an empty
group all return the same value `VK_ERROR_INITIALIZATION_FAILED`, so the three
results are not pairwise different. -/
theorem C16_failure_kinds_counterexample :
    ctx_pair.config.gpu_count ≤ 5 ∧ F32.gt ⟨0x3FC00000⟩ F32.one = true ∧
    ctx_empty.config.gpu_count = 0 ∧
    (vkd3d_multigpu_set_primary_gpu (some ctx_pair) 5).1 = VK_ERROR_INITIALIZATION_FAILED ∧
    (vkd3d_multigpu_set_load_balance_threshold (some ctx_pair) ⟨0x3FC00000⟩).1 =
      VK_ERROR_INITIALIZATION_FAILED ∧
    (vkd3d_multigpu_create_device_group (some ctx_empty)).1 = VK_ERROR_INITIALIZATION_FAILED ∧
    ¬ ((vkd3d_multigpu_set_primary_gpu (some ctx_pair) 5).1 ≠
          (vkd3d_multigpu_set_load_balance_threshold (some ctx_pair) ⟨0x3FC00000⟩).1 ∧
        (vkd3d_multigpu_set_primary_gpu (some ctx_pair) 5).1 ≠
          (vkd3d_multigpu_create_device_group (some ctx_empty)).1 ∧
        (vkd3d_multigpu_set_load_balance_threshold (some ctx_pair) ⟨0x3FC00000⟩).1 ≠
          (vkd3d_multigpu_create_device_group (some ctx_empty)).1) := by
  decide

/-- C16 (amended): `set_primary_gpu` with `gpu_index >= gpu_count`,
`set_load_balance_threshold` with a threshold below `0.0` or above `1.0`, and
`create_device_group` on a context with `gpu_count == 0` all report the one
value `VK_ERROR_INITIALIZATION_FAILED`, which differs from `VK_SUCCESS`: the
result tells failure from success, not one kind of failure from another. -/
theorem C16_failure_kinds (c : vkd3d_multigpu_context) (gpu_index : Nat) (threshold : F32) :
    VK_ERROR_INITIALIZATION_FAILED ≠ VK_SUCCESS ∧
    (c.config.gpu_count ≤ gpu_index →
      (vkd3d_multigpu_set_primary_gpu (some c) gpu_index).1 =
        VK_ERROR_INITIALIZATION_FAILED) ∧
    (F32.lt threshold F32.zero = true ∨ F32.gt threshold F32.one = true →
      (vkd3d_multigpu_set_load_balance_threshold (some c) threshold).1 =
        VK_ERROR_INITIALIZATION_FAILED) ∧
    (c.config.gpu_count = 0 →
      (vkd3d_multigpu_create_device_group (some c)).1 = VK_ERROR_INITIALIZATION_FAILED) := by
  refine ⟨by decide, ?_, ?_, ?_⟩
  · intro hge
    simp [vkd3d_multigpu_set_primary_gpu, hge]
  · intro ht
    have : (F32.lt threshold F32.zero || F32.gt threshold F32.one) = true := by
      rcases ht with h | h <;> simp [h]
    simp [vkd3d_multigpu_set_load_balance_threshold, this]
  · intro h0
    simp [vkd3d_multigpu_create_device_group, h0]

/-- C16 (amended) on the sample contexts: index `5` of two GPUs, threshold
`-0.1`, and the empty group. -/
theorem C16_failure_kinds_witness :
    (vkd3d_multigpu_set_primary_gpu (some ctx_pair) 5).1 = VK_ERROR_INITIALIZATION_FAILED ∧
    (vkd3d_multigpu_set_load_balance_threshold (some ctx_pair) ⟨0xBDCCCCCD⟩).1 =
      VK_ERROR_INITIALIZATION_FAILED ∧
    (vkd3d_multigpu_create_device_group (some ctx_empty)).1 = VK_ERROR_INITIALIZATION_FAILED :=
  ⟨(C16_failure_kinds ctx_pair 5 F32.zero).2.1 (by decide),
    (C16_failure_kinds ctx_pair 0 ⟨0xBDCCCCCD⟩).2.2.1 (Or.inl (by decide)),
    (C16_failure_kinds ctx_empty 0 F32.zero).2.2.2 (by decide)⟩

/-- C18: `vkd3d_multigpu_create_device_group` fails if and only if the context
is `NULL` or its `gpu_count` is `0`; it never changes the context; and it
succeeds on every context returned by `vkd3d_multigpu_create`. -/
theorem C18_create_device_group (ctx : Option vkd3d_multigpu_context) :
    VK_ERROR_INITIALIZATION_FAILED ≠ VK_SUCCESS ∧
    ((vkd3d_multigpu_create_device_group ctx).1 = VK_ERROR_INITIALIZATION_FAILED ↔
      (ctx = none ∨ ∃ c, ctx = some c ∧ c.config.gpu_count = 0)) ∧
    ((vkd3d_multigpu_create_device_group ctx).1 = VK_SUCCESS ↔
      ∃ c, ctx = some c ∧ 1 ≤ c.config.gpu_count) ∧
    (vkd3d_multigpu_create_device_group ctx).2 = ctx ∧
    (∀ (env : alloc_env) (cfg : vkd3d_device_group_config) (r : create_result),
      vkd3d_multigpu_create env (some cfg) = Outcome.ok r → r.ret = ctx → ctx ≠ none →
      vkd3d_multigpu_create_device_group ctx = (VK_SUCCESS, ctx)) := by
  have hne : VK_ERROR_INITIALIZATION_FAILED ≠ VK_SUCCESS := by decide
  cases ctx with
  | none =>
    refine ⟨hne, ?_, ?_, rfl, ?_⟩
    · simp [vkd3d_multigpu_create_device_group]
    · simp only [vkd3d_multigpu_create_device_group]
      constructor
      · intro h
        exact absurd h hne
      · rintro ⟨c, hc, _⟩
        cases hc
    · intro _ _ _ _ _ h
      exact absurd rfl h
  | some c =>
    by_cases h0 : c.config.gpu_count = 0
    · refine ⟨hne, ?_, ?_, ?_, ?_⟩
      · simp [vkd3d_multigpu_create_device_group, h0]
      · simp only [vkd3d_multigpu_create_device_group, h0, if_true]
        constructor
        · intro h
          exact absurd h hne
        · rintro ⟨c2, hc, hge⟩
          cases hc
          omega
      · simp [vkd3d_multigpu_create_device_group, h0]
      · intro env cfg r hr hret _
        obtain ⟨hn, _, hcfg⟩ := create_accepts env cfg r c hr hret
        rw [hcfg] at h0
        simp only at h0
        omega
    · refine ⟨hne, ?_, ?_, ?_, ?_⟩
      · simp only [vkd3d_multigpu_create_device_group, h0, if_false]
        constructor
        · intro h
          exact absurd h.symm hne
        · rintro (h | ⟨c2, hc, hz⟩)
          · cases h
          · cases hc
            exact absurd hz h0
      · simp only [vkd3d_multigpu_create_device_group, h0, if_false]
        constructor
        · intro _
          exact ⟨c, rfl, by omega⟩
        · intro _
          trivial
      · simp [vkd3d_multigpu_create_device_group, h0]
      · intro _ _ _ _ _ _
        simp [vkd3d_multigpu_create_device_group, h0]

/-- C18 on the context created from the two-GPU sample config. -/
theorem C18_create_device_group_witness :
    ∃ ctx, vkd3d_multigpu_create env_ok (some cfg_two) =
        Outcome.ok ⟨some ctx, some cfg_two, []⟩ ∧
      vkd3d_multigpu_create_device_group (some ctx) = (VK_SUCCESS, some ctx) := by
  obtain ⟨lp, lu, lb, hres, _⟩ := create_spec env_ok cfg_two env_ok_all_ok cfg_two_valid
    (by decide)
  exact ⟨_, hres, (C18_create_device_group _).2.2.2.2 env_ok cfg_two _ hres rfl (by simp)⟩

/-! ## Device group context: teardown and rollback -/

theorem write_ok_length {α : Type} (p q : Option (List α)) (i : Nat) (v : α) (n : Nat)
    (h : write p i v = Outcome.ok q) (hp : ∃ l, p = some l ∧ l.length = n) :
    ∃ l, q = some l ∧ l.length = n := by
  obtain ⟨l, hl, hlen⟩ := hp
  subst hl
  unfold write at h
  by_cases hi : i < l.length
  · simp only [hi, if_true] at h
    cases h
    exact ⟨_, rfl, by simpa using hlen⟩
  · simp only [hi, if_false] at h
    cases h

/-- The initialisation loop of `vkd3d_multigpu_create` keeps the three blocks
it writes to at their size. -/
theorem create_loop_arrays (cfg : vkd3d_device_group_config) (n : Nat) :
    ∀ (k i : Nat) (ctx ctx1 : vkd3d_multigpu_context),
      create_loop cfg k i ctx = Outcome.ok ctx1 →
      (∃ l, ctx.physical_devices = some l ∧ l.length = n) →
      (∃ l, ctx.gpu_utilization = some l ∧ l.length = n) →
      (∃ l, ctx.gpu_bytes_transferred = some l ∧ l.length = n) →
      (∃ l, ctx1.physical_devices = some l ∧ l.length = n) ∧
      (∃ l, ctx1.gpu_utilization = some l ∧ l.length = n) ∧
      (∃ l, ctx1.gpu_bytes_transferred = some l ∧ l.length = n) := by
  intro k
  induction k with
  | zero =>
    intro i ctx ctx1 h hp hu hb
    unfold create_loop at h
    cases h
    exact ⟨hp, hu, hb⟩
  | succ k ih =>
    intro i ctx ctx1 h hp hu hb
    unfold create_loop at h
    cases hg : read cfg.gpus i with
    | fault => rw [hg] at h; cases h
    | ok g =>
      cases hwp : write ctx.physical_devices i g.physical_device with
      | fault => rw [hg] at h; simp only [Outcome.bind, hwp] at h; cases h
      | ok pd =>
        cases hwu : write ctx.gpu_utilization i F32.zero with
        | fault => rw [hg] at h; simp only [Outcome.bind, hwp, hwu] at h; cases h
        | ok gu =>
          cases hwb : write ctx.gpu_bytes_transferred i 0 with
          | fault => rw [hg] at h; simp only [Outcome.bind, hwp, hwu, hwb] at h; cases h
          | ok gb =>
            rw [hg] at h
            simp only [Outcome.bind, hwp, hwu, hwb] at h
            exact ih (i + 1) _ ctx1 h (write_ok_length _ _ _ _ n hwp hp)
              (write_ok_length _ _ _ _ n hwu hu) (write_ok_length _ _ _ _ n hwb hb)

/-- The loop of `vkd3d_multigpu_destroy` runs to completion when
`logical_devices` is `NULL` or covers the index range. -/
theorem destroy_loop_total (ld : Option (List Nat)) :
    ∀ (k i : Nat) (acc : List Nat),
      (ld = none ∨ ∃ l, ld = some l ∧ i + k ≤ l.length) →
      ∃ d, destroy_loop ld k i acc = Outcome.ok d := by
  intro k
  induction k with
  | zero =>
    intro i acc _
    exact ⟨acc, rfl⟩
  | succ k ih =>
    intro i acc h
    rcases h with h | ⟨l, hl, hlen⟩
    · subst h
      unfold destroy_loop
      exact ih (i + 1) acc (Or.inl rfl)
    · subst hl
      have hi : i < l.length := by omega
      unfold destroy_loop
      simp only [read_of_lt l i hi, Outcome.bind]
      split
      · exact ih (i + 1) _ (Or.inr ⟨l, rfl, by omega⟩)
      · exact ih (i + 1) _ (Or.inr ⟨l, rfl, by omega⟩)

theorem malloc_valid {α : Type} (fresh : Option (Nat → α)) (n : Nat) :
    malloc fresh n = none ∨ ∃ l, malloc fresh n = some l ∧ l.length = n := by
  cases fresh with
  | none => exact Or.inl rfl
  | some f => exact Or.inr ⟨_, rfl, by simp⟩

theorem malloc_isNone {α : Type} (fresh : Option (Nat → α)) (n : Nat) :
    (malloc fresh n).isNone = fresh.isNone := by
  cases fresh <;> rfl

/-- If the context allocation or one of the six array allocations fails,
`vkd3d_multigpu_create` runs to completion and returns `NULL`. -/
theorem create_alloc_failure (env : alloc_env) (cfg : vkd3d_device_group_config)
    (hfail : env.ctx = false ∨ env.physical_devices = none ∨ env.logical_devices = none ∨
      env.compute_queues = none ∨ env.transfer_queues = none ∨
      env.gpu_utilization = none ∨ env.gpu_bytes_transferred = none) :
    ∃ r, vkd3d_multigpu_create env (some cfg) = Outcome.ok r ∧ r.ret = none := by
  unfold vkd3d_multigpu_create
  by_cases h0 : cfg.gpu_count = 0
  · simp only [h0, if_true]
    exact ⟨_, rfl, rfl⟩
  · simp only [h0, if_false]
    by_cases hc : env.ctx = false
    · simp only [hc, Bool.not_false, if_true]
      exact ⟨_, rfl, rfl⟩
    · have hct : env.ctx = true := by simpa using hc
      have hcond : ((malloc env.physical_devices cfg.gpu_count).isNone ||
          (malloc env.logical_devices cfg.gpu_count).isNone ||
          (malloc env.compute_queues cfg.gpu_count).isNone ||
          (malloc env.transfer_queues cfg.gpu_count).isNone ||
          (malloc env.gpu_utilization cfg.gpu_count).isNone ||
          (malloc env.gpu_bytes_transferred cfg.gpu_count).isNone) = true := by
        simp only [malloc_isNone]
        rcases hfail with h | h | h | h | h | h | h
        · exact absurd h hc
        all_goals simp [h]
      obtain ⟨d, hd⟩ := destroy_loop_total (malloc env.logical_devices cfg.gpu_count)
        cfg.gpu_count 0 [] (by
          rcases malloc_valid env.logical_devices cfg.gpu_count with h | ⟨l, hl, hlen⟩
          · exact Or.inl h
          · exact Or.inr ⟨l, hl, by omega⟩)
      simp only [hct, Bool.not_true, Bool.false_eq_true, if_false, hcond, if_true,
        vkd3d_multigpu_destroy, hd, Outcome.bind]
      exact ⟨_, rfl, rfl⟩

/-- Every context `vkd3d_multigpu_create` returns has its six per-GPU arrays
allocated, each with `gpu_count` entries. -/
theorem create_returns_valid (env : alloc_env) (cfg : vkd3d_device_group_config)
    (r : create_result) (ctx : vkd3d_multigpu_context)
    (h : vkd3d_multigpu_create env (some cfg) = Outcome.ok r) (hr : r.ret = some ctx) :
    ctx_valid ctx ∧ env.ctx = true ∧ env.physical_devices.isSome = true ∧
      env.logical_devices.isSome = true ∧ env.compute_queues.isSome = true ∧
      env.transfer_queues.isSome = true ∧ env.gpu_utilization.isSome = true ∧
      env.gpu_bytes_transferred.isSome = true ∧
      ctx.logical_devices = malloc env.logical_devices cfg.gpu_count ∧
      ctx.compute_queues = malloc env.compute_queues cfg.gpu_count ∧
      ctx.transfer_queues = malloc env.transfer_queues cfg.gpu_count := by
  have hall : env.ctx = true ∧ env.physical_devices.isSome = true ∧
      env.logical_devices.isSome = true ∧ env.compute_queues.isSome = true ∧
      env.transfer_queues.isSome = true ∧ env.gpu_utilization.isSome = true ∧
      env.gpu_bytes_transferred.isSome = true := by
    by_contra hnot
    have hfail : env.ctx = false ∨ env.physical_devices = none ∨ env.logical_devices = none ∨
        env.compute_queues = none ∨ env.transfer_queues = none ∨
        env.gpu_utilization = none ∨ env.gpu_bytes_transferred = none := by
      by_contra hno
      simp only [not_or] at hno
      obtain ⟨a, b, c, d, e, f, g⟩ := hno
      apply hnot
      refine ⟨by simpa using a, ?_, ?_, ?_, ?_, ?_, ?_⟩ <;>
        simp [Option.isSome_iff_ne_none, *]
    obtain ⟨r2, hr2, hnone⟩ := create_alloc_failure env cfg hfail
    rw [h] at hr2
    cases hr2
    rw [hr] at hnone
    cases hnone
  obtain ⟨hn, _, hcfg⟩ := create_accepts env cfg r ctx h hr
  obtain ⟨h0, h1, h2, h3, h4, h5, h6⟩ := hall
  obtain ⟨fp, hfp⟩ := Option.isSome_iff_exists.1 h1
  obtain ⟨fl, hfl⟩ := Option.isSome_iff_exists.1 h2
  obtain ⟨fc, hfc⟩ := Option.isSome_iff_exists.1 h3
  obtain ⟨ft, hft⟩ := Option.isSome_iff_exists.1 h4
  obtain ⟨fu, hfu⟩ := Option.isSome_iff_exists.1 h5
  obtain ⟨fb, hfb⟩ := Option.isSome_iff_exists.1 h6
  have hne : ¬ cfg.gpu_count = 0 := by omega
  unfold vkd3d_multigpu_create at h
  simp only [hne, if_false, h0, hfp, hfl, hfc, hft, hfu, hfb, malloc_some, Option.isNone_some,
    Bool.or_self, Bool.not_true, Bool.false_eq_true] at h
  cases hl : create_loop cfg cfg.gpu_count 0
      { config := cfg
        instance_handle := 0
        physical_devices := some ((List.range cfg.gpu_count).map fp)
        logical_devices := some ((List.range cfg.gpu_count).map fl)
        compute_queues := some ((List.range cfg.gpu_count).map fc)
        transfer_queues := some ((List.range cfg.gpu_count).map ft)
        frame_fences := none
        gpu_events := none
        frame_semaphores := none
        device_memories := none
        allocated_sizes := none
        total_frames := 0
        gpu_utilization := some ((List.range cfg.gpu_count).map fu)
        gpu_bytes_transferred := some ((List.range cfg.gpu_count).map fb) } with
  | fault => rw [hl] at h; cases h
  | ok ctx1 =>
    rw [hl] at h
    simp only [Outcome.bind] at h
    cases h
    simp only [Option.some.injEq] at hr
    subst hr
    have hf := create_loop_frame cfg _ _ _ ctx1 hl
    obtain ⟨a1, a2, a3⟩ := create_loop_arrays cfg cfg.gpu_count _ _ _ ctx1 hl
      ⟨_, rfl, by simp⟩ ⟨_, rfl, by simp⟩ ⟨_, rfl, by simp⟩
    have e1 : ctx1.logical_devices = some ((List.range cfg.gpu_count).map fl) := by
      rw [hf]
    have e2 : ctx1.compute_queues = some ((List.range cfg.gpu_count).map fc) := by
      rw [hf]
    have e3 : ctx1.transfer_queues = some ((List.range cfg.gpu_count).map ft) := by
      rw [hf]
    have e4 : ctx1.config.gpu_count = cfg.gpu_count := by
      rw [hf]
    refine ⟨⟨?_, ?_, ?_, ?_, ?_, ?_⟩, h0, h1, h2, h3, h4, h5, h6, ?_, ?_, ?_⟩
    · simpa [e4] using a1
    · exact ⟨_, e1, by simp [e4]⟩
    · exact ⟨_, e2, by simp [e4]⟩
    · exact ⟨_, e3, by simp [e4]⟩
    · simpa [e4] using a2
    · simpa [e4] using a3
    · rw [hfl, malloc_some]
      exact e1
    · rw [hfc, malloc_some]
      exact e2
    · rw [hft, malloc_some]
      exact e3

/-- The loop of `vkd3d_multigpu_destroy` hands exactly the non-null entries of
the index range to `vkDestroyDevice`, in order. -/
theorem destroy_loop_spec (l : List Nat) :
    ∀ (k i : Nat) (acc : List Nat), i + k ≤ l.length →
      destroy_loop (some l) k i acc =
        Outcome.ok (acc ++ ((l.drop i).take k).filter fun d => d ≠ 0) := by
  intro k
  induction k with
  | zero =>
    intro i acc _
    simp [destroy_loop]
  | succ k ih =>
    intro i acc hlen
    have hi : i < l.length := by omega
    have hd : l.drop i = l[i] :: l.drop (i + 1) := List.drop_eq_getElem_cons hi
    unfold destroy_loop
    simp only [read_of_lt l i hi, Outcome.bind]
    rw [hd, List.take_succ_cons]
    by_cases hz : l[i] = 0
    · have hz1 : ¬ l.get ⟨i, hi⟩ ≠ 0 := fun h => h hz
      rw [if_neg hz1, ih (i + 1) acc (by omega)]
      simp [List.filter_cons, hz]
    · have hz1 : l.get ⟨i, hi⟩ ≠ 0 := hz
      rw [if_pos hz1, ih (i + 1) _ (by omega)]
      simp [List.filter_cons, hz]

/-- On a context with a well-formed `logical_devices` array,
`vkd3d_multigpu_destroy` hands exactly its non-null entries to
`vkDestroyDevice`. -/
theorem destroy_spec (c : vkd3d_multigpu_context) (l : List Nat)
    (hl : c.logical_devices = some l) (hlen : l.length = c.config.gpu_count) :
    vkd3d_multigpu_destroy (some c) = Outcome.ok (l.filter fun d => d ≠ 0) := by
  unfold vkd3d_multigpu_destroy
  simp only [hl]
  rw [destroy_loop_spec l c.config.gpu_count 0 [] (by omega), ← hlen]
  simp

/-- C13 (defect): the context `vkd3d_multigpu_create` returns for the two-GPU
sample config, when the allocator hands back blocks with non-zero content, has
non-null logical-device entries although no device was ever created, and
`vkd3d_multigpu_destroy` hands both of them to `vkDestroyDevice`. -/
theorem C13_destroy_fresh_context :
    vkd3d_multigpu_create env_ok (some cfg_two) =
      Outcome.ok ⟨some ctx_fresh_two, some cfg_two, []⟩ ∧
    (vkd3d_multigpu_create_device_group (some ctx_fresh_two)).2 = some ctx_fresh_two ∧
    ctx_fresh_two.logical_devices = some [0xBB00, 0xBB01] ∧
    vkd3d_multigpu_destroy (some ctx_fresh_two) = Outcome.ok [0xBB00, 0xBB01] := by
  decide

/-- What holds of `vkd3d_multigpu_create` when the native teardown call is
taken to return: if the context allocation or any one of the six per-GPU array
allocations fails the returned pointer is `NULL`, and every context that is
returned has all six per-GPU arrays allocated, with `gpu_count` entries each.
What the rollback does before it returns is not constrained here. -/
theorem create_no_partial_context (env : alloc_env) (cfg : vkd3d_device_group_config) :
    ((env.ctx = false ∨ env.physical_devices = none ∨ env.logical_devices = none ∨
        env.compute_queues = none ∨ env.transfer_queues = none ∨
        env.gpu_utilization = none ∨ env.gpu_bytes_transferred = none) →
      ∃ r, vkd3d_multigpu_create env (some cfg) = Outcome.ok r ∧ r.ret = none) ∧
    (∀ r ctx, vkd3d_multigpu_create env (some cfg) = Outcome.ok r → r.ret = some ctx →
      ctx_valid ctx ∧ env.all_ok) := by
  constructor
  · exact create_alloc_failure env cfg
  · intro r ctx h hr
    obtain ⟨hv, h0, h1, h2, h3, h4, h5, h6, _⟩ := create_returns_valid env cfg r ctx h hr
    exact ⟨hv, h0, h1, h2, h3, h4, h5, h6⟩

/-- The two-GPU sample config: with the last allocation failing the returned
pointer is `NULL`; with every allocation succeeding the returned context is
well-formed. -/
theorem create_no_partial_context_sample :
    (∃ r, vkd3d_multigpu_create env_fail_last (some cfg_two) = Outcome.ok r ∧ r.ret = none) ∧
    ctx_valid ctx_fresh_two :=
  ⟨(create_no_partial_context env_fail_last cfg_two).1
      (Or.inr (Or.inr (Or.inr (Or.inr (Or.inr (Or.inr rfl)))))),
    ((create_no_partial_context env_ok cfg_two).2 ⟨some ctx_fresh_two, some cfg_two, []⟩
      ctx_fresh_two (by decide) rfl).1⟩

theorem destroy_loop_null :
    ∀ (k i : Nat) (acc : List Nat), destroy_loop none k i acc = Outcome.ok acc := by
  intro k
  induction k with
  | zero =>
    intro i acc
    rfl
  | succ k ih =>
    intro i acc
    unfold destroy_loop
    exact ih (i + 1) acc

/-- The rollback of `vkd3d_multigpu_create`: when the context is allocated and
one of the six array allocations fails, the teardown hands to
`vkDestroyDevice` every non-null entry of the `logical_devices` block, which
nothing has initialised, and then `NULL` is returned.  No handle is handed
over only if that block was not allocated or happens to hold zeros. -/
theorem create_rollback_destroyed (env : alloc_env) (cfg : vkd3d_device_group_config)
    (hn : cfg.gpu_count ≠ 0) (hctx : env.ctx = true)
    (hfail : env.physical_devices = none ∨ env.logical_devices = none ∨
      env.compute_queues = none ∨ env.transfer_queues = none ∨
      env.gpu_utilization = none ∨ env.gpu_bytes_transferred = none) :
    vkd3d_multigpu_create env (some cfg) = Outcome.ok
      ⟨none, some cfg,
        match malloc env.logical_devices cfg.gpu_count with
        | none => []
        | some l => l.filter fun d => d ≠ 0⟩ := by
  have hcond : ((malloc env.physical_devices cfg.gpu_count).isNone ||
      (malloc env.logical_devices cfg.gpu_count).isNone ||
      (malloc env.compute_queues cfg.gpu_count).isNone ||
      (malloc env.transfer_queues cfg.gpu_count).isNone ||
      (malloc env.gpu_utilization cfg.gpu_count).isNone ||
      (malloc env.gpu_bytes_transferred cfg.gpu_count).isNone) = true := by
    simp only [malloc_isNone]
    rcases hfail with h | h | h | h | h | h <;> simp [h]
  have hd : vkd3d_multigpu_destroy (some
      { config := cfg
        instance_handle := 0
        physical_devices := malloc env.physical_devices cfg.gpu_count
        logical_devices := malloc env.logical_devices cfg.gpu_count
        compute_queues := malloc env.compute_queues cfg.gpu_count
        transfer_queues := malloc env.transfer_queues cfg.gpu_count
        frame_fences := none
        gpu_events := none
        frame_semaphores := none
        device_memories := none
        allocated_sizes := none
        total_frames := 0
        gpu_utilization := malloc env.gpu_utilization cfg.gpu_count
        gpu_bytes_transferred := malloc env.gpu_bytes_transferred cfg.gpu_count }) =
      Outcome.ok
        (match malloc env.logical_devices cfg.gpu_count with
        | none => []
        | some l => l.filter fun d => d ≠ 0) := by
    unfold vkd3d_multigpu_destroy
    cases hl : env.logical_devices with
    | none =>
      simp only [malloc, Option.map_none']
      exact destroy_loop_null cfg.gpu_count 0 []
    | some f =>
      simp only [malloc_some]
      rw [destroy_loop_spec _ cfg.gpu_count 0 [] (by simp)]
      have hlen : ((List.range cfg.gpu_count).map f).length = cfg.gpu_count := by simp
      simp only [List.drop_zero, List.nil_append]
      rw [List.take_of_length_le (by omega)]
  unfold vkd3d_multigpu_create
  simp only [hn, if_false, hctx, Bool.not_true, Bool.false_eq_true, hcond, if_true, hd,
    Outcome.bind]

/-- C14 (defect): on the two-GPU sample config with only the last of the seven
allocations failing, `vkd3d_multigpu_create` does not roll back cleanly:
before `NULL` is returned the teardown hands the two entries of the
`logical_devices` block to `vkDestroyDevice`.  The block came from `malloc`
and was never written, and no device was ever created, so both handles are
allocator garbage. -/
theorem C14_rollback_destroys_garbage :
    env_fail_last.ctx = true ∧ env_fail_last.gpu_bytes_transferred.isNone = true ∧
    malloc env_fail_last.logical_devices cfg_two.gpu_count = some [0xBB00, 0xBB01] ∧
    vkd3d_multigpu_create env_fail_last (some cfg_two) =
      Outcome.ok ⟨none, some cfg_two, [0xBB00, 0xBB01]⟩ ∧
    vkd3d_multigpu_create env_fail_last (some cfg_two) ≠
      Outcome.ok ⟨none, some cfg_two, []⟩ := by
  decide

/-! ## GPU inventory -/

theorem heap_bytes_cons (h : VkMemoryHeap) (t : List VkMemoryHeap) :
    heap_bytes (h :: t) = h.size + heap_bytes t := by
  simp [heap_bytes]

/-- Device-local and other heaps together make up all the heaps. -/
theorem heap_bytes_split (heaps : List VkMemoryHeap) :
    heap_bytes (heaps.filter device_local) +
      heap_bytes (heaps.filter fun heap => !device_local heap) = heap_bytes heaps := by
  induction heaps with
  | nil => simp [heap_bytes]
  | cons h t ih =>
    by_cases hd : device_local h = true
    · simp only [List.filter_cons, hd, if_true, Bool.not_true, Bool.false_eq_true, if_false,
        heap_bytes_cons]
      omega
    · have hd2 : device_local h = false := by simpa using hd
      simp only [List.filter_cons, hd2, Bool.false_eq_true, if_false, Bool.not_false, if_true,
        heap_bytes_cons]
      omega

/-- The heap loop adds, modulo `2^64`, the sizes of the device-local heaps of
its index range to the first accumulator and the sizes of the others to the
second. -/
theorem heap_loop_spec (m : VkPhysicalDeviceMemoryProperties) :
    ∀ (k j d s : Nat), j + k ≤ m.memoryHeaps.length → d < 2 ^ 64 → s < 2 ^ 64 →
      heap_loop m k j d s = Outcome.ok
        ((d + heap_bytes (((m.memoryHeaps.drop j).take k).filter device_local)) % 2 ^ 64,
          (s + heap_bytes (((m.memoryHeaps.drop j).take k).filter
            fun heap => !device_local heap)) % 2 ^ 64) := by
  intro k
  induction k with
  | zero =>
    intro j d s _ hd hs
    simp only [heap_loop, heap_bytes, List.take_zero, List.filter_nil, List.map_nil,
      List.sum_nil, Nat.add_zero, Nat.mod_eq_of_lt hd, Nat.mod_eq_of_lt hs]
  | succ k ih =>
    intro j d s hlen hd hs
    have hj : j < m.memoryHeaps.length := by omega
    have hdrop : m.memoryHeaps.drop j = m.memoryHeaps[j] :: m.memoryHeaps.drop (j + 1) :=
      List.drop_eq_getElem_cons hj
    have hM : (0 : Nat) < 2 ^ 64 := by norm_num
    unfold heap_loop
    simp only [read_of_lt m.memoryHeaps j hj, Outcome.bind]
    rw [hdrop, List.take_succ_cons]
    by_cases hf : device_local m.memoryHeaps[j] = true
    · have hc : (m.memoryHeaps.get ⟨j, hj⟩).flags &&& VK_MEMORY_HEAP_DEVICE_LOCAL_BIT ≠ 0 := by
        simpa [device_local] using hf
      rw [if_pos hc, ih (j + 1) _ s (by omega) (Nat.mod_lt _ hM) hs]
      simp only [List.filter_cons, hf, if_true, Bool.not_true, Bool.false_eq_true, if_false,
        heap_bytes_cons]
      congr 2
      show ((d + m.memoryHeaps[j].size) % 2 ^ 64 + _) % 2 ^ 64 = _
      omega
    · have hf2 : device_local m.memoryHeaps[j] = false := by simpa using hf
      have hc : ¬ (m.memoryHeaps.get ⟨j, hj⟩).flags &&& VK_MEMORY_HEAP_DEVICE_LOCAL_BIT ≠ 0 := by
        simpa [device_local] using hf2
      rw [if_neg hc, ih (j + 1) d _ (by omega) hd (Nat.mod_lt _ hM)]
      simp only [List.filter_cons, hf2, Bool.false_eq_true, if_false, Bool.not_false, if_true,
        heap_bytes_cons]
      congr 2
      show ((s + m.memoryHeaps[j].size) % 2 ^ 64 + _) % 2 ^ 64 = _
      omega

/-- The adapter loop on blocks that cover the index range: it completes and
leaves in every slot of the range a descriptor of the adapter of that
ordinal. -/
theorem enumerate_loop_spec (env : enumerate_env) (pds : List Nat)
    (hheaps : ∀ pd ∈ pds, (env.memory_properties pd).memoryHeapCount ≤
      (env.memory_properties pd).memoryHeaps.length) :
    ∀ (k i : Nat) (l : List vkd3d_gpu_info), i + k ≤ pds.length → i + k ≤ l.length →
      ∃ l1, enumerate_loop env (some pds) k i (some l) = Outcome.ok (some l1) ∧
        l1.length = l.length ∧
        (∀ j : Nat, i ≤ j → j < i + k →
          ∃ g pd, l1[j]? = some g ∧ pds[j]? = some pd ∧ descriptor_of env j pd g) ∧
        (∀ j : Nat, j < i → l1[j]? = l[j]?) := by
  intro k
  induction k with
  | zero =>
    intro i l _ _
    refine ⟨l, rfl, rfl, ?_, fun _ _ => rfl⟩
    intro j h1 h2
    omega
  | succ k ih =>
    intro i l hp hl
    have hip : i < pds.length := by omega
    have hil : i < l.length := by omega
    have hpd : pds[i]? = some pds[i] := List.getElem?_eq_getElem hip
    have hmem : pds[i] ∈ pds := List.getElem_mem hip
    have hheap := heap_loop_spec (env.memory_properties pds[i])
      (env.memory_properties pds[i]).memoryHeapCount 0 0 0
      (by have := hheaps _ hmem; omega) (by norm_num) (by norm_num)
    obtain ⟨l1, hres, hlen, hz, hpre⟩ := ih (i + 1)
      (l.set i
        { l[i] with
          gpu_index := i
          device_id := (env.properties pds[i]).deviceID
          physical_device := pds[i]
          dedicated_vram := (0 + heap_bytes
            ((((env.memory_properties pds[i]).memoryHeaps.drop 0).take
              (env.memory_properties pds[i]).memoryHeapCount).filter device_local)) % 2 ^ 64
          shared_vram := (0 + heap_bytes
            ((((env.memory_properties pds[i]).memoryHeaps.drop 0).take
              (env.memory_properties pds[i]).memoryHeapCount).filter
                fun heap => !device_local heap)) % 2 ^ 64
          device_name := strncpy (env.properties pds[i]).deviceName 255 ++ [0] })
      (by omega) (by simp; omega)
    refine ⟨l1, ?_, by simpa using hlen, ?_, ?_⟩
    · unfold enumerate_loop
      have r1 : read (some pds) i = Outcome.ok pds[i] := read_of_lt pds i hip
      have r2 : read (some l) i = Outcome.ok l[i] := read_of_lt l i hil
      simp only [r1, r2, Outcome.bind, hheap, write_of_lt l i _ hil]
      exact hres
    · intro j h1 h2
      rcases Nat.eq_or_lt_of_le h1 with h | h
      · subst h
        have hg := hpre i (by omega)
        rw [List.getElem?_set_self hil] at hg
        refine ⟨_, pds[i], hg, hpd, ?_⟩
        unfold descriptor_of
        refine ⟨rfl, rfl, rfl, ?_, ?_⟩ <;> simp [reported_heaps]
      · exact hz j (by omega) (by omega)
    · intro j hj
      rw [hpre j (by omega), List.getElem?_set_ne (by omega)]

/-- C17: when the instance handle and both output pointers are non-`NULL`,
both `vkEnumeratePhysicalDevices` calls and both allocations succeed, and each
adapter's heap count fits its heap array, `vkd3d_multigpu_enumerate_gpus`
succeeds and returns one descriptor per reported adapter, in order.
Descriptor `i` has `gpu_index = i` and the handle of adapter `i`; its
`dedicated_vram` is the sum modulo `2^64` of the sizes of the adapter's
device-local heaps, its `shared_vram` the sum modulo `2^64` of the sizes of the
other heaps, and the two add up, modulo `2^64`, to the total of all heap
sizes.  With no adapter the output is the `NULL` array with count `0`. -/
theorem C17_enumerate_gpus (env : enumerate_env) (instance_handle : Nat)
    (gpus0 : Option (List vkd3d_gpu_info)) (count0 : Nat)
    (hinst : instance_handle ≠ 0)
    (hcount : env.count_result = VK_SUCCESS) (hfill : env.fill_result = VK_SUCCESS)
    (hm1 : env.malloc_physical_devices.isSome = true) (hm2 : env.malloc_gpus.isSome = true)
    (hheaps : ∀ pd ∈ env.physical_devices, (env.memory_properties pd).memoryHeapCount ≤
      (env.memory_properties pd).memoryHeaps.length) :
    ∃ gpus : List vkd3d_gpu_info,
      vkd3d_multigpu_enumerate_gpus env instance_handle (some gpus0) (some count0) =
        Outcome.ok ⟨VK_SUCCESS,
          some (if env.physical_devices.length = 0 then none else some gpus),
          some env.physical_devices.length⟩ ∧
      gpus.length = env.physical_devices.length ∧
      ∀ i : Nat, i < env.physical_devices.length →
        ∃ g pd, gpus[i]? = some g ∧ env.physical_devices[i]? = some pd ∧
          g.gpu_index = i ∧ g.physical_device = pd ∧
          g.dedicated_vram =
            heap_bytes ((reported_heaps (env.memory_properties pd)).filter device_local)
              % 2 ^ 64 ∧
          g.shared_vram =
            heap_bytes ((reported_heaps (env.memory_properties pd)).filter
              fun heap => !device_local heap) % 2 ^ 64 ∧
          (g.dedicated_vram + g.shared_vram) % 2 ^ 64 =
            heap_bytes (reported_heaps (env.memory_properties pd)) % 2 ^ 64 := by
  have hguard : ¬ (instance_handle = 0 ∨ (some gpus0).isNone = true ∨
      (some count0).isNone = true) := by
    simp [hinst]
  have hc : ¬ env.count_result ≠ VK_SUCCESS := by simp [hcount]
  have hf : ¬ env.fill_result ≠ VK_SUCCESS := by simp [hfill]
  by_cases h0 : env.physical_devices.length = 0
  · refine ⟨[], ?_, by simp [h0], ?_⟩
    · unfold vkd3d_multigpu_enumerate_gpus
      simp only [hguard, if_false, hc, h0, if_true]
    · intro i hi
      omega
  · obtain ⟨f1, hf1⟩ := Option.isSome_iff_exists.1 hm1
    obtain ⟨f2, hf2⟩ := Option.isSome_iff_exists.1 hm2
    obtain ⟨l1, hres, hlen, hz, _⟩ := enumerate_loop_spec env env.physical_devices hheaps
      env.physical_devices.length 0 ((List.range env.physical_devices.length).map f2)
      (by omega) (by simp)
    refine ⟨l1, ?_, by simpa using hlen, ?_⟩
    · unfold vkd3d_multigpu_enumerate_gpus
      simp only [hinst, or_self, if_false, hc, h0, hf, hf1, hf2, malloc_some,
        Option.isNone_some, Bool.or_self, Bool.false_eq_true, hres, Outcome.bind]
    · intro i hi
      obtain ⟨g, pd, hg, hpd, hdesc⟩ := hz i (by omega) (by omega)
      unfold descriptor_of at hdesc
      obtain ⟨d1, d2, _, d4, d5⟩ := hdesc
      refine ⟨g, pd, hg, hpd, d1, d2, d4, d5, ?_⟩
      rw [d4, d5, ← heap_bytes_split (reported_heaps (env.memory_properties pd))]
      omega

/-- C17 on two adapters, the first with heaps of `2^33` (device-local), `2^34`
(shared) and `2^64 - 1` (device-local) bytes: its dedicated total wraps to
`2^33 - 1`. -/
theorem C17_enumerate_gpus_witness :
    (match vkd3d_multigpu_enumerate_gpus env_two_adapters 1 (some none) (some 99) with
      | Outcome.ok r =>
        (r.ret, r.out_gpu_count,
          (r.out_gpus.bind id).map fun gpus =>
            gpus.map fun g => (g.gpu_index, g.dedicated_vram, g.shared_vram))
      | Outcome.fault => (VK_ERROR_INITIALIZATION_FAILED, none, none)) =
      (VK_SUCCESS, some 2, some [(0, 2 ^ 33 - 1, 2 ^ 34), (1, 0, 2 ^ 32)]) ∧
    ∃ gpus : List vkd3d_gpu_info,
      vkd3d_multigpu_enumerate_gpus env_two_adapters 1 (some none) (some 99) =
        Outcome.ok ⟨VK_SUCCESS,
          some (if env_two_adapters.physical_devices.length = 0 then none else some gpus),
          some env_two_adapters.physical_devices.length⟩ ∧
      gpus.length = env_two_adapters.physical_devices.length ∧
      ∀ i : Nat, i < env_two_adapters.physical_devices.length →
        ∃ g pd, gpus[i]? = some g ∧ env_two_adapters.physical_devices[i]? = some pd ∧
          g.gpu_index = i ∧ g.physical_device = pd ∧
          g.dedicated_vram =
            heap_bytes ((reported_heaps (env_two_adapters.memory_properties pd)).filter
              device_local) % 2 ^ 64 ∧
          g.shared_vram =
            heap_bytes ((reported_heaps (env_two_adapters.memory_properties pd)).filter
              fun heap => !device_local heap) % 2 ^ 64 ∧
          (g.dedicated_vram + g.shared_vram) % 2 ^ 64 =
            heap_bytes (reported_heaps (env_two_adapters.memory_properties pd)) % 2 ^ 64 :=
  ⟨by decide,
    C17_enumerate_gpus env_two_adapters 1 none 99 (by decide) rfl rfl rfl rfl (by decide)⟩

/-! ## Peer access manager -/

/-- An entry of a duplicate-free link list occurs in it exactly once. -/
theorem links_count_of_mem (l : List (Nat × Nat)) (p : Nat × Nat) (hnd : l.Nodup)
    (h : p ∈ l) : l.count p = 1 := by
  induction l with
  | nil => cases h
  | cons x t ih =>
    obtain ⟨hx, ht⟩ := List.nodup_cons.1 hnd
    by_cases hp : p = x
    · subst hp
      rw [List.count_cons_self, List.count_eq_zero_of_not_mem hx]
    · have hmem : p ∈ t := by
        rcases List.mem_cons.1 h with h | h
        · exact absurd h hp
        · exact h
      rw [List.count_cons_of_ne hp, ih ht hmem]

/-- C19: for an in-range ordered pair `(A, B)` of adapters that support a peer
link, two `enable_peer_access(ctx, A, B)` calls in a row both succeed; the
state after the second call equals the state after the first; the link
`(A, B)` is then present exactly once; the device-group context is untouched;
and no other link is created, in particular not the reverse link `(B, A)`. -/
theorem C19_enable_peer_access_twice (peer_supported : Nat → Nat → Bool) (s : peer_context)
    (a b : Nat) (ha : a < s.ctx.config.gpu_count) (hb : b < s.ctx.config.gpu_count)
    (hsup : peer_supported a b = true) (hnd : s.links.Nodup) :
    (vkd3d_multigpu_enable_peer_access peer_supported s a b).1 = peer_result.success ∧
    (vkd3d_multigpu_enable_peer_access peer_supported
      (vkd3d_multigpu_enable_peer_access peer_supported s a b).2 a b).1 =
        peer_result.success ∧
    (vkd3d_multigpu_enable_peer_access peer_supported
      (vkd3d_multigpu_enable_peer_access peer_supported s a b).2 a b).2 =
        (vkd3d_multigpu_enable_peer_access peer_supported s a b).2 ∧
    (vkd3d_multigpu_enable_peer_access peer_supported s a b).2.links.count (a, b) = 1 ∧
    (vkd3d_multigpu_enable_peer_access peer_supported s a b).2.ctx = s.ctx ∧
    (∀ p, p ∈ (vkd3d_multigpu_enable_peer_access peer_supported s a b).2.links ↔
      (p = (a, b) ∨ p ∈ s.links)) ∧
    (a ≠ b → (b, a) ∉ s.links →
      (b, a) ∉ (vkd3d_multigpu_enable_peer_access peer_supported
        (vkd3d_multigpu_enable_peer_access peer_supported s a b).2 a b).2.links) := by
  have hrange : ¬ (a ≥ s.ctx.config.gpu_count ∨ b ≥ s.ctx.config.gpu_count) := by omega
  by_cases hmem : (a, b) ∈ s.links
  · have h1 : vkd3d_multigpu_enable_peer_access peer_supported s a b =
        (peer_result.success, s) := by
      simp [vkd3d_multigpu_enable_peer_access, hrange, hsup, hmem]
    rw [h1]
    simp only [h1]
    refine ⟨trivial, trivial, trivial, links_count_of_mem s.links (a, b) hnd hmem, trivial, ?_, ?_⟩
    · intro p
      constructor
      · intro h
        exact Or.inr h
      · rintro (h | h)
        · rw [h]
          exact hmem
        · exact h
    · intro _ hrev
      exact hrev
  · have h1 : vkd3d_multigpu_enable_peer_access peer_supported s a b =
        (peer_result.success, { s with links := s.links ++ [(a, b)] }) := by
      simp [vkd3d_multigpu_enable_peer_access, hrange, hsup, hmem]
    have h2 : vkd3d_multigpu_enable_peer_access peer_supported
        { s with links := s.links ++ [(a, b)] } a b =
        (peer_result.success, { s with links := s.links ++ [(a, b)] }) := by
      simp [vkd3d_multigpu_enable_peer_access, hrange, hsup]
    rw [h1]
    simp only [h2]
    refine ⟨trivial, trivial, trivial, ?_, trivial, ?_, ?_⟩
    · rw [List.count_append, List.count_eq_zero_of_not_mem hmem, List.count_singleton_self]
    · intro p
      simp only [List.mem_append, List.mem_singleton]
      tauto
    · intro hab hrev
      simp only [List.mem_append, List.mem_singleton, not_or]
      refine ⟨hrev, ?_⟩
      intro h
      have := congrArg Prod.fst h
      exact hab this.symm

/-- C19 on the two-GPU sample context with no link yet and every pair
supported: after enabling `(0, 1)` twice the links are exactly `[(0, 1)]`. -/
theorem C19_enable_peer_access_twice_witness :
    (vkd3d_multigpu_enable_peer_access (fun _ _ => true)
      (vkd3d_multigpu_enable_peer_access (fun _ _ => true) ⟨ctx_pair, []⟩ 0 1).2 0 1) =
        (peer_result.success, ⟨ctx_pair, [(0, 1)]⟩) ∧
    (vkd3d_multigpu_enable_peer_access (fun _ _ => true) ⟨ctx_pair, []⟩ 0 1).2.links.count
      (0, 1) = 1 :=
  ⟨by decide,
    (C19_enable_peer_access_twice (fun _ _ => true) ⟨ctx_pair, []⟩ 0 1 (by decide) (by decide)
      rfl List.nodup_nil).2.2.2.1⟩

/-! ## Invariants of a live context -/

/-- Every context `vkd3d_multigpu_create` returns satisfies the shape
invariant for the `gpu_count` of its config. -/
theorem create_establishes_inv (env : alloc_env) (cfg : vkd3d_device_group_config)
    (r : create_result) (ctx : vkd3d_multigpu_context)
    (h : vkd3d_multigpu_create env (some cfg) = Outcome.ok r) (hr : r.ret = some ctx) :
    ctx_inv cfg.gpu_count ctx := by
  obtain ⟨hn, _, hcfg⟩ := create_accepts env cfg r ctx h hr
  obtain ⟨hv, _⟩ := create_returns_valid env cfg r ctx h hr
  refine ⟨by rw [hcfg], hn, hv, ?_⟩
  rw [hcfg]
  show (if cfg.primary_gpu < cfg.gpu_count then cfg.primary_gpu else 0) < cfg.gpu_count
  split
  · assumption
  · omega

/-- Each call on a context that satisfies the shape invariant runs to
completion and leaves a context that satisfies it, for the same `n`. -/
theorem run_call_inv (n : Nat) (c : vkd3d_multigpu_context) (call : ctx_call)
    (hinv : ctx_inv n c) : ∃ c1, run_call c call = Outcome.ok c1 ∧ ctx_inv n c1 := by
  obtain ⟨hcount, hn, hv, hprim⟩ := hinv
  cases call with
  | set_primary_gpu gpu_index =>
    by_cases hge : gpu_index ≥ c.config.gpu_count
    · refine ⟨c, ?_, hcount, hn, hv, hprim⟩
      simp [run_call, vkd3d_multigpu_set_primary_gpu, hge, pointee]
    · refine ⟨{ c with config := { c.config with primary_gpu := gpu_index } }, ?_, hcount, hn,
        hv, ?_⟩
      · simp only [run_call, vkd3d_multigpu_set_primary_gpu, hge, if_false, pointee]
      · show gpu_index < c.config.gpu_count
        omega
  | set_frame_pacing enabled frame_interval_ms =>
    exact ⟨_, rfl, hcount, hn, hv, hprim⟩
  | set_load_balance_threshold threshold =>
    by_cases hbad : (F32.lt threshold F32.zero || F32.gt threshold F32.one) = true
    · refine ⟨c, ?_, hcount, hn, hv, hprim⟩
      simp only [run_call, vkd3d_multigpu_set_load_balance_threshold, hbad, if_true, pointee]
    · refine ⟨{ c with config := { c.config with gpu_load_threshold := threshold } }, ?_,
        hcount, hn, hv, hprim⟩
      simp only [run_call, vkd3d_multigpu_set_load_balance_threshold, hbad, pointee]
      rfl
  | reset_stats =>
    obtain ⟨lu, lb, hres, hlu, hlb, _, _⟩ := reset_stats_spec c hv
    obtain ⟨v1, v2, v3, v4, _, _⟩ := hv
    refine ⟨{ c with gpu_utilization := some lu, gpu_bytes_transferred := some lb,
                     total_frames := 0 }, ?_, hcount, hn,
      ⟨v1, v2, v3, v4, ⟨lu, rfl, hlu⟩, ⟨lb, rfl, hlb⟩⟩, hprim⟩
    simp only [run_call, hres, Outcome.bind, pointee]
  | create_device_group =>
    refine ⟨c, ?_, hcount, hn, hv, hprim⟩
    have h0 : ¬ c.config.gpu_count = 0 := by omega
    simp only [run_call, vkd3d_multigpu_create_device_group, h0, if_false, pointee]
  | get_gpu_stats gpu_index utilization bytes_transferred =>
    refine ⟨c, ?_, hcount, hn, hv, hprim⟩
    by_cases hge : gpu_index ≥ c.config.gpu_count
    · simp [run_call, vkd3d_multigpu_get_gpu_stats, hge, Outcome.bind]
    · obtain ⟨_, _, _, _, ⟨lu, hu, hlu⟩, ⟨lb, hb, hlb⟩⟩ := hv
      have hiu : gpu_index < lu.length := by omega
      have hib : gpu_index < lb.length := by omega
      have hstats := get_gpu_stats_spec c gpu_index lu lb lu[gpu_index] lb[gpu_index] hu hb
        (List.getElem?_eq_getElem hiu) (List.getElem?_eq_getElem hib) (by omega)
        utilization bytes_transferred
      simp only [run_call, hstats, Outcome.bind]
  | get_optimal_gpu workload_size =>
    refine ⟨c, ?_, hcount, hn, hv, hprim⟩
    obtain ⟨_, _, _, _, ⟨lu, hu, hlu⟩, _⟩ := hv
    obtain ⟨r, _, hr, _⟩ := get_optimal_gpu_spec c workload_size lu hu hlu (by omega)
    simp only [run_call, hr, Outcome.bind]

/-- Every sequence of calls on a context that satisfies the shape invariant
runs to completion and ends in a context that satisfies it. -/
theorem run_calls_inv (n : Nat) (calls : List ctx_call) :
    ∀ c : vkd3d_multigpu_context, ctx_inv n c →
      ∃ c1, run_calls c calls = Outcome.ok c1 ∧ ctx_inv n c1 := by
  induction calls with
  | nil =>
    intro c hinv
    exact ⟨c, rfl, hinv⟩
  | cons call rest ih =>
    intro c hinv
    obtain ⟨c1, h1, hinv1⟩ := run_call_inv n c call hinv
    obtain ⟨c2, h2, hinv2⟩ := ih c1 hinv1
    refine ⟨c2, ?_, hinv2⟩
    simp only [run_calls, h1, Outcome.bind, h2]

/-- C21: from any context returned by `vkd3d_multigpu_create`, every sequence
of `set_primary_gpu`, `set_frame_pacing`, `set_load_balance_threshold`,
`reset_stats`, `create_device_group`, `get_gpu_stats` and `get_optimal_gpu`
calls, with any arguments and whether they succeed or fail, runs to completion
and ends in a context whose `gpu_count` is the value of the config given to
create and at least `1`, whose six per-GPU arrays hold exactly `gpu_count`
entries, and whose `primary_gpu` is below `gpu_count`. -/
theorem C21_reachable_context_shape (env : alloc_env) (cfg : vkd3d_device_group_config)
    (r : create_result) (ctx : vkd3d_multigpu_context) (calls : List ctx_call)
    (hcreate : vkd3d_multigpu_create env (some cfg) = Outcome.ok r)
    (hret : r.ret = some ctx) :
    ∃ c1, run_calls ctx calls = Outcome.ok c1 ∧
      c1.config.gpu_count = cfg.gpu_count ∧ 1 ≤ c1.config.gpu_count ∧
      (∃ l, c1.physical_devices = some l ∧ l.length = c1.config.gpu_count) ∧
      (∃ l, c1.logical_devices = some l ∧ l.length = c1.config.gpu_count) ∧
      (∃ l, c1.compute_queues = some l ∧ l.length = c1.config.gpu_count) ∧
      (∃ l, c1.transfer_queues = some l ∧ l.length = c1.config.gpu_count) ∧
      (∃ l, c1.gpu_utilization = some l ∧ l.length = c1.config.gpu_count) ∧
      (∃ l, c1.gpu_bytes_transferred = some l ∧ l.length = c1.config.gpu_count) ∧
      c1.config.primary_gpu < c1.config.gpu_count := by
  obtain ⟨c1, hrun, hcount, hn, hv, hprim⟩ :=
    run_calls_inv cfg.gpu_count calls ctx (create_establishes_inv env cfg r ctx hcreate hret)
  obtain ⟨v1, v2, v3, v4, v5, v6⟩ := hv
  exact ⟨c1, hrun, hcount, by omega, v1, v2, v3, v4, v5, v6, hprim⟩

/-- C21 on the context created from the two-GPU config whose primary is `5`,
followed by the sample call sequence: the run ends with `gpu_count = 2`, two
entries in each array and primary GPU `1`. -/
theorem C21_reachable_context_shape_witness :
    ∃ r ctx c1, vkd3d_multigpu_create env_ok (some cfg_bad_primary) = Outcome.ok r ∧
      r.ret = some ctx ∧ run_calls ctx sample_calls = Outcome.ok c1 ∧
      c1.config.gpu_count = 2 ∧ c1.config.primary_gpu < c1.config.gpu_count ∧
      (∃ l, c1.logical_devices = some l ∧ l.length = c1.config.gpu_count) ∧
      (∃ l, c1.gpu_utilization = some l ∧ l.length = c1.config.gpu_count) := by
  obtain ⟨lp, lu, lb, hres, _⟩ :=
    create_spec env_ok cfg_bad_primary env_ok_all_ok cfg_bad_primary_valid (by decide)
  obtain ⟨c1, hrun, hcount, _, _, v2, _, _, v5, _, hprim⟩ :=
    C21_reachable_context_shape env_ok cfg_bad_primary _ _ sample_calls hres rfl
  exact ⟨_, _, c1, hres, rfl, hrun, hcount, hprim, v2, v5⟩

/-- The sample call sequence on the context created from the two-GPU sample
config: the failing calls change nothing, the succeeding ones only what they
set. -/
theorem run_calls_sample :
    run_calls ctx_fresh_two sample_calls = Outcome.ok
      { ctx_fresh_two with config := { ctx_fresh_two.config with
          primary_gpu := 1, gpu_load_threshold := F32.one,
          frame_pacing_enabled := 1, frame_interval_ms := 0 } } := by
  decide

end Vkd3dMultiGpu
